import Mathlib

/-!
# Verification of the Benjo Moments persistence layer

Shallow embedding of the SQLAlchemy data-access layer (`database_sa.py`,
`models.py`) of the Benjo Moments photography-studio application, together
with proofs about its CRUD operations.

Modelling conventions:
* Each table is a list of row structures mirroring the ORM models; the whole
  database is a `DB` structure of those lists.
* Monetary amounts (Python floats parsed by `_validate_amount`) are modelled
  as rationals; an input that `float()` cannot parse is `none`.
* Timestamps (`datetime.utcnow()`) are abstract `Nat` parameters `now`;
  `deleted_at` is `Option Nat` (NULL = `none`).
* The logged-in actor (`_actor_email()`, a Flask request-context lookup) is a
  `String` parameter, and the randomness of `secrets.token_hex` is an oracle
  `tokens : Nat → String` giving the suffix drawn on each attempt.
* A mutating operation returns `Except DBError α × DB`: the final database is
  always returned, and an `Except.error` result models a raised Python
  exception (`ValueError` / `RuntimeError`); since every raising path in the
  source either raises before `commit()` or after `rollback()`, the database
  component on an error path is the unchanged input state.
* `log_audit` swallows every failure of the audit write; the possibility of
  such a failure is modelled by a boolean `aok` ("the audit INSERT would
  succeed"), and `log_audit` is a total function on it.
* The `details_json` audit column (a JSON blob built from request context by
  `_audit_details`) is elided from `AuditRow`; claims only concern whether an
  entry is written, by whom, and for which entity.
-/

namespace Benjo

/-- Decidable equality for `Except`, so that concrete runs of the embedded
operations can be checked by `decide`. -/
def exceptDecEq {ε α : Type} [DecidableEq ε] [DecidableEq α] :
    (a b : Except ε α) → Decidable (a = b)
  | .error e, .error f =>
      if h : e = f then .isTrue (by rw [h]) else .isFalse (by intro hc; cases hc; exact h rfl)
  | .error _, .ok _ => .isFalse (by intro hc; cases hc)
  | .ok _, .error _ => .isFalse (by intro hc; cases hc)
  | .ok a, .ok b =>
      if h : a = b then .isTrue (by rw [h]) else .isFalse (by intro hc; cases hc; exact h rfl)

instance {ε α : Type} [DecidableEq ε] [DecidableEq α] : DecidableEq (Except ε α) :=
  exceptDecEq

/-- Python exceptions raised by the data-access layer. -/
inductive DBError where
  | valueError (msg : String)
  | runtimeError (msg : String)
deriving DecidableEq, Repr

/-- Calendar date, mirroring Python `datetime.date`. -/
structure Date where
  year : Nat
  month : Nat
  day : Nat
deriving DecidableEq, Repr

/-- Leap-year rule used by `datetime`. -/
def isLeapYear (y : Nat) : Bool :=
  (y % 4 == 0 && y % 100 != 0) || y % 400 == 0

/-- Number of days in a month of a given year. -/
def daysInMonth (y m : Nat) : Nat :=
  if m == 2 then (if isLeapYear y then 29 else 28)
  else if m == 4 || m == 6 || m == 9 || m == 11 then 30
  else 31

/-- Validity of a date triple, as enforced by `datetime.date`. -/
def Date.ok (d : Date) : Bool :=
  1 ≤ d.year && d.year ≤ 9999 && 1 ≤ d.month && d.month ≤ 12 &&
    1 ≤ d.day && d.day ≤ daysInMonth d.year d.month

/-- Python `str.strip()`: drop whitespace from both ends. -/
def pyStrip (s : String) : String :=
  ⟨((s.data.dropWhile Char.isWhitespace).reverse.dropWhile Char.isWhitespace).reverse⟩

/-- Python `str.lower()` (ASCII case fold, as used on status strings). -/
def pyLower (s : String) : String :=
  ⟨s.data.map Char.toLower⟩

/-- Parse a non-empty all-digit character run as a number. -/
def pyToNat? (l : List Char) : Option Nat :=
  if l ≠ [] && l.all Char.isDigit then
    some (l.foldl (fun n c => n * 10 + (c.toNat - 48)) 0)
  else none

/-- Split a character list on a separator, Python `str.split(sep)` style. -/
def splitOnChar (c : Char) : List Char → List (List Char)
  | [] => [[]]
  | x :: xs =>
    match splitOnChar c xs with
    | [] => if x = c then [[], []] else [[x]]
    | h :: t => if x = c then [] :: h :: t else (x :: h) :: t

/-- `datetime.strptime(s.strip(), "%Y-%m-%d").date()`: split on `-`,
three numeric fields forming a valid calendar date. -/
def parseDateStr (s : String) : Option Date :=
  match (splitOnChar '-' (pyStrip s).data).map pyToNat? with
  | [some y, some m, some d] =>
      let dt : Date := ⟨y, m, d⟩
      if dt.ok then some dt else none
  | _ => none

/-- An input value handed to `_validate_date`: either a `date`/`datetime`
object (reduced to its date part), or anything else, taken through
`str(value)`. -/
inductive PyDate where
  | obj (d : Date)
  | raw (s : String)
deriving DecidableEq, Repr

/-- Result of parsing a `_validate_date` input. -/
def parsePyDate : PyDate → Option Date
  | .obj d => some d
  | .raw s => parseDateStr s

/-- `_validate_date` from `database_sa.py`. -/
def _validate_date (v : PyDate) (label : String) : Except DBError Date :=
  match parsePyDate v with
  | some d => .ok d
  | none => .error (.valueError (label ++ " must be a valid date in YYYY-MM-DD format."))

/-- `_validate_amount` from `database_sa.py`: `none` models an input that
`float(value)` rejects. -/
def _validate_amount (v : Option ℚ) (label : String) : Except DBError ℚ :=
  match v with
  | none => .error (.valueError (label ++ " must be a number."))
  | some q => if q < 0 then .error (.valueError (label ++ " must be zero or greater.")) else .ok q

/-! ## Row types, mirroring the ORM models of `models.py` -/

/-- A row of the `income` table (`class Income`). -/
structure IncomeRow where
  id : Nat
  date : Date
  description : String
  category : String
  amount : ℚ
  created_at : Nat
  is_deleted : Bool
  deleted_at : Option Nat
deriving DecidableEq, Repr

/-- A row of the `expenses` table (`class Expense`). -/
structure ExpenseRow where
  id : Nat
  date : Date
  description : String
  category : String
  amount : ℚ
  created_at : Nat
  is_deleted : Bool
  deleted_at : Option Nat
deriving DecidableEq, Repr

/-- A row of the `customers` table (`class Customer`). -/
structure CustomerRow where
  id : Nat
  name : String
  service : String
  amount_paid : ℚ
  total_amount : ℚ
  contact : Option String
  created_at : Nat
  is_deleted : Bool
  deleted_at : Option Nat
deriving DecidableEq, Repr

/-- A row of the `invoices` table (`class Invoice`). -/
structure InvoiceRow where
  id : Nat
  invoice_number : String
  customer_id : Nat
  date : Date
  amount : ℚ
  status : String
  created_at : Nat
  is_deleted : Bool
  deleted_at : Option Nat
deriving DecidableEq, Repr

/-- A row of the `gallery` table (`class GalleryImage`). -/
structure GalleryRow where
  id : Nat
  filename : String
  album : String
  caption : Option String
  published : Bool
  uploaded_at : Nat
  is_deleted : Bool
  deleted_at : Option Nat
deriving DecidableEq, Repr

/-- A row of the `contact_messages` table (`class ContactMessage`). -/
structure ContactRow where
  id : Nat
  name : String
  email : String
  phone : Option String
  service : Option String
  message : String
  is_read : Bool
  created_at : Nat
deriving DecidableEq, Repr

/-- A row of the `pricing_packages` table (`class PricingPackage`). -/
structure PackageRow where
  id : Nat
  name : String
  description : Option String
  price : Int
  price_label : String
  icon : String
  features : Option String
  is_featured : Bool
  display_order : Int
  is_active : Bool
  created_at : Nat
deriving DecidableEq, Repr

/-- A row of the `audit_logs` table (`class AuditLog`); the request-context
`details_json` column is elided. -/
structure AuditRow where
  user_email : String
  action : String
  entity_type : String
  entity_id : Option Nat
deriving DecidableEq, Repr

/-- The database: the tables of `models.py` that the data-access layer
operations under study read or write. -/
structure DB where
  incomes : List IncomeRow
  expenses : List ExpenseRow
  customers : List CustomerRow
  invoices : List InvoiceRow
  gallery : List GalleryRow
  messages : List ContactRow
  packages : List PackageRow
  audits : List AuditRow
deriving DecidableEq, Repr

/-- Next autoincrement primary key for a table whose current ids are `ids`. -/
def freshId (ids : List Nat) : Nat :=
  ids.foldr (fun a b => max a b) 0 + 1

/-! ## Sorting helper for `ORDER BY ... DESC` -/

/-- Insert `x` before the first element of strictly smaller key
(descending insertion sort step). -/
def insertByKeyDesc (key : α → Nat) (x : α) : List α → List α
  | [] => [x]
  | y :: ys => if key y < key x then x :: y :: ys else y :: insertByKeyDesc key x ys

/-- Stable sort by descending key, modelling `ORDER BY key DESC`. -/
def sortByKeyDesc (key : α → Nat) : List α → List α
  | [] => []
  | x :: xs => insertByKeyDesc key x (sortByKeyDesc key xs)

/-- Numeric key giving the calendar order on valid dates. -/
def Date.key (d : Date) : Nat :=
  d.year * 10000 + d.month * 100 + d.day

/-! ## Audit logging -/

/-- `log_audit` from `database_sa.py`: write an audit entry, swallowing all
errors. `aok` says whether the audit INSERT would succeed; in either case
the function returns normally and the rest of the database is untouched. -/
def log_audit (aok : Bool) (user_email action entity_type : String)
    (entity_id : Option Nat) (db : DB) : DB :=
  if aok then
    { db with audits := db.audits ++ [⟨user_email, action, entity_type, entity_id⟩] }
  else
    db

/-! ## Income operations -/

/-- `get_all_income`: non-deleted income rows, newest date first. -/
def get_all_income (db : DB) : List IncomeRow :=
  sortByKeyDesc (fun r => r.date.key) (db.incomes.filter (fun r => !r.is_deleted))

/-- `get_total_income`: `COALESCE(SUM(amount), 0)` over non-deleted income. -/
def get_total_income (db : DB) : ℚ :=
  ((db.incomes.filter (fun r => !r.is_deleted)).map (fun r => r.amount)).sum

/-- `add_income`: validate amount, date, description and category, then
insert a new non-deleted row and write an audit entry. -/
def add_income (actor : String) (aok : Bool) (date : PyDate)
    (description category : String) (amount : Option ℚ) (now : Nat)
    (db : DB) : Except DBError Unit × DB :=
  match _validate_amount amount "Income amount" with
  | .error e => (.error e, db)
  | .ok amt =>
  match _validate_date date "Income date" with
  | .error e => (.error e, db)
  | .ok d =>
  if pyStrip description = "" then (.error (.valueError "Description is required."), db)
  else if pyStrip category = "" then (.error (.valueError "Category is required."), db)
  else
    let rid := freshId (db.incomes.map (fun r => r.id))
    let db' := { db with incomes := db.incomes ++ [⟨rid, d, description, category, amt, now, false, none⟩] }
    (.ok (), log_audit aok actor "create" "income" (some rid) db')

/-- `delete_income`: soft-delete the row found by primary key, if any,
and write an audit entry; silently do nothing when the id is absent. -/
def delete_income (actor : String) (aok : Bool) (income_id : Nat) (now : Nat)
    (db : DB) : Except DBError Unit × DB :=
  match db.incomes.find? (fun r => r.id == income_id) with
  | none => (.ok (), db)
  | some _ =>
    let db' := { db with incomes := db.incomes.map (fun r =>
        if r.id == income_id then { r with is_deleted := true, deleted_at := some now } else r) }
    (.ok (), log_audit aok actor "delete" "income" (some income_id) db')

/-- `restore_income`: clear the soft-delete flag and timestamp of the row
found by primary key, provided it is currently soft-deleted. -/
def restore_income (actor : String) (aok : Bool) (income_id : Nat)
    (db : DB) : Except DBError Unit × DB :=
  match db.incomes.find? (fun r => r.id == income_id) with
  | none => (.ok (), db)
  | some row =>
    if row.is_deleted then
      let db' := { db with incomes := db.incomes.map (fun r =>
          if r.id == income_id then { r with is_deleted := false, deleted_at := none } else r) }
      (.ok (), log_audit aok actor "restore" "income" (some income_id) db')
    else (.ok (), db)

/-! ## Expense operations -/

/-- `get_all_expenses`: non-deleted expense rows, newest date first. -/
def get_all_expenses (db : DB) : List ExpenseRow :=
  sortByKeyDesc (fun r => r.date.key) (db.expenses.filter (fun r => !r.is_deleted))

/-- `get_total_expenses`: `COALESCE(SUM(amount), 0)` over non-deleted expenses. -/
def get_total_expenses (db : DB) : ℚ :=
  ((db.expenses.filter (fun r => !r.is_deleted)).map (fun r => r.amount)).sum

/-- `add_expense`: same validation and insertion shape as `add_income`. -/
def add_expense (actor : String) (aok : Bool) (date : PyDate)
    (description category : String) (amount : Option ℚ) (now : Nat)
    (db : DB) : Except DBError Unit × DB :=
  match _validate_amount amount "Expense amount" with
  | .error e => (.error e, db)
  | .ok amt =>
  match _validate_date date "Expense date" with
  | .error e => (.error e, db)
  | .ok d =>
  if pyStrip description = "" then (.error (.valueError "Description is required."), db)
  else if pyStrip category = "" then (.error (.valueError "Category is required."), db)
  else
    let rid := freshId (db.expenses.map (fun r => r.id))
    let db' := { db with expenses := db.expenses ++ [⟨rid, d, description, category, amt, now, false, none⟩] }
    (.ok (), log_audit aok actor "create" "expense" (some rid) db')

/-- `delete_expense`: soft-delete by primary key, audited. -/
def delete_expense (actor : String) (aok : Bool) (expense_id : Nat) (now : Nat)
    (db : DB) : Except DBError Unit × DB :=
  match db.expenses.find? (fun r => r.id == expense_id) with
  | none => (.ok (), db)
  | some _ =>
    let db' := { db with expenses := db.expenses.map (fun r =>
        if r.id == expense_id then { r with is_deleted := true, deleted_at := some now } else r) }
    (.ok (), log_audit aok actor "delete" "expense" (some expense_id) db')

/-- `restore_expense`: clear the soft-delete state if currently deleted. -/
def restore_expense (actor : String) (aok : Bool) (expense_id : Nat)
    (db : DB) : Except DBError Unit × DB :=
  match db.expenses.find? (fun r => r.id == expense_id) with
  | none => (.ok (), db)
  | some row =>
    if row.is_deleted then
      let db' := { db with expenses := db.expenses.map (fun r =>
          if r.id == expense_id then { r with is_deleted := false, deleted_at := none } else r) }
      (.ok (), log_audit aok actor "restore" "expense" (some expense_id) db')
    else (.ok (), db)

/-! ## Customer operations -/

/-- `get_all_customers`: non-deleted customers, newest `created_at` first. -/
def get_all_customers (db : DB) : List CustomerRow :=
  sortByKeyDesc (fun r => r.created_at) (db.customers.filter (fun r => !r.is_deleted))

/-- `add_customer`: require non-blank name and service, valid non-negative
amounts, and `amount_paid ≤ total_amount`; then insert and audit. -/
def add_customer (actor : String) (aok : Bool) (name service : String)
    (amount_paid total_amount : Option ℚ) (contact : Option String) (now : Nat)
    (db : DB) : Except DBError Unit × DB :=
  if pyStrip name = "" then (.error (.valueError "Customer name is required."), db)
  else if pyStrip service = "" then (.error (.valueError "Service is required."), db)
  else
  match _validate_amount total_amount "Total amount" with
  | .error e => (.error e, db)
  | .ok total =>
  match _validate_amount amount_paid "Amount paid" with
  | .error e => (.error e, db)
  | .ok paid =>
  if paid > total then (.error (.valueError "Amount paid cannot exceed total amount."), db)
  else
    let rid := freshId (db.customers.map (fun r => r.id))
    let db' := { db with customers := db.customers ++ [⟨rid, name, service, paid, total, contact, now, false, none⟩] }
    (.ok (), log_audit aok actor "create" "customer" (some rid) db')

/-- `update_customer_payment`: validate the new amount, and when the
customer exists, reject an amount above the customer's `total_amount`,
otherwise store it and audit. -/
def update_customer_payment (actor : String) (aok : Bool) (customer_id : Nat)
    (amount_paid : Option ℚ) (db : DB) : Except DBError Unit × DB :=
  match _validate_amount amount_paid "Amount paid" with
  | .error e => (.error e, db)
  | .ok paid =>
  match db.customers.find? (fun r => r.id == customer_id) with
  | none => (.ok (), db)
  | some row =>
    if paid > row.total_amount then
      (.error (.valueError "Amount paid cannot exceed total amount."), db)
    else
      let db' := { db with customers := db.customers.map (fun r =>
          if r.id == customer_id then { r with amount_paid := paid } else r) }
      (.ok (), log_audit aok actor "update" "customer" (some customer_id) db')

/-- `delete_customer`: soft-delete the customer and every invoice of that
customer (the `customer.invoices` relationship), in one commit, audited. -/
def delete_customer (actor : String) (aok : Bool) (customer_id : Nat) (now : Nat)
    (db : DB) : Except DBError Unit × DB :=
  match db.customers.find? (fun r => r.id == customer_id) with
  | none => (.ok (), db)
  | some _ =>
    let db' := { db with
      invoices := db.invoices.map (fun i =>
        if i.customer_id == customer_id then { i with is_deleted := true, deleted_at := some now } else i),
      customers := db.customers.map (fun r =>
        if r.id == customer_id then { r with is_deleted := true, deleted_at := some now } else r) }
    (.ok (), log_audit aok actor "delete" "customer" (some customer_id) db')

/-- `restore_customer`: restore a soft-deleted customer only (the source
deliberately does not restore the customer's invoices). -/
def restore_customer (actor : String) (aok : Bool) (customer_id : Nat)
    (db : DB) : Except DBError Unit × DB :=
  match db.customers.find? (fun r => r.id == customer_id) with
  | none => (.ok (), db)
  | some row =>
    if row.is_deleted then
      let db' := { db with customers := db.customers.map (fun r =>
          if r.id == customer_id then { r with is_deleted := false, deleted_at := none } else r) }
      (.ok (), log_audit aok actor "restore" "customer" (some customer_id) db')
    else (.ok (), db)

/-- `get_total_pending_balance`: `SUM(total_amount - amount_paid)` over
non-deleted customers. -/
def get_total_pending_balance (db : DB) : ℚ :=
  ((db.customers.filter (fun r => !r.is_deleted)).map
    (fun r => r.total_amount - r.amount_paid)).sum

/-! ## Invoice operations -/

/-- Whether `num` is already used by any invoice row (the UNIQUE constraint
on `invoices.invoice_number`, and the existence query of
`_gen_invoice_number`; soft-deleted rows count). -/
def invoiceNumberTaken (invoices : List InvoiceRow) (num : String) : Bool :=
  invoices.any (fun r => r.invoice_number == num)

/-- The candidate string `f"INV-{date}-{suffix}"` built on one generation
attempt from the formatted current date and the drawn random suffix. -/
def invCandidate (dateStr suffix : String) : String :=
  "INV-" ++ dateStr ++ "-" ++ suffix

/-- The attempt loop of `_gen_invoice_number` (`for _ in range(20)`),
about to run attempt `i` with `fuel` attempts remaining; `tokens k` is the
random suffix drawn on attempt `k`. -/
def genFrom (tokens : Nat → String) (dateStr : String)
    (invoices : List InvoiceRow) : Nat → Nat → Except DBError String
  | _, 0 => .error (.runtimeError "Unable to generate unique invoice number.")
  | i, fuel + 1 =>
    if invoiceNumberTaken invoices (invCandidate dateStr (tokens i)) then
      genFrom tokens dateStr invoices (i + 1) fuel
    else .ok (invCandidate dateStr (tokens i))

/-- `_gen_invoice_number`: up to 20 random candidates, first fresh one wins,
`RuntimeError` on exhaustion. -/
def _gen_invoice_number (tokens : Nat → String) (dateStr : String)
    (invoices : List InvoiceRow) : Except DBError String :=
  genFrom tokens dateStr invoices 0 20

/-- Python truthiness of the `invoice_number` argument (`None` and `""` are
falsy, any other string is truthy). -/
def pyTruthy : Option String → Bool
  | none => false
  | some s => s != ""

/-- The retry loop of `add_invoice`, at iteration `i` of the 20 allowed.
Each iteration recomputes `num` (the stripped supplied number if non-blank,
else a generated one), tries the INSERT, and on a uniqueness violation
rolls back and either raises `ValueError` (number was supplied) or retries. -/
def addInvoiceLoop (tokens : Nat → String) (dateStr : String) (actor : String)
    (aok : Bool) (inv_number : Option String) (customer_id : Nat) (d : Date)
    (amt : ℚ) (now : Nat) (db : DB) : Nat → Except DBError String × DB
  | 0 => (.error (.runtimeError "Unable to create invoice due to repeated invoice number conflicts."), db)
  | fuel + 1 =>
    let supplied := pyStrip (inv_number.getD "")
    match (if supplied ≠ "" then Except.ok supplied
           else _gen_invoice_number tokens dateStr db.invoices) with
    | .error e => (.error e, db)
    | .ok num =>
      if invoiceNumberTaken db.invoices num then
        if pyTruthy inv_number then
          (.error (.valueError "Invoice number already exists. Use a different number."), db)
        else addInvoiceLoop tokens dateStr actor aok inv_number customer_id d amt now db fuel
      else
        let iid := freshId (db.invoices.map (fun r => r.id))
        let db' := { db with invoices := db.invoices ++ [⟨iid, num, customer_id, d, amt, "Pending", now, false, none⟩] }
        (.ok num, log_audit aok actor "create" "invoice" (some iid) db')

/-- `add_invoice`: validate amount and date, then run the retry loop. -/
def add_invoice (tokens : Nat → String) (dateStr : String) (actor : String)
    (aok : Bool) (inv_number : Option String) (customer_id : Nat)
    (date : PyDate) (amount : Option ℚ) (now : Nat)
    (db : DB) : Except DBError String × DB :=
  match _validate_amount amount "Invoice amount" with
  | .error e => (.error e, db)
  | .ok amt =>
  match _validate_date date "Invoice date" with
  | .error e => (.error e, db)
  | .ok d =>
    addInvoiceLoop tokens dateStr actor aok inv_number customer_id d amt now db 20

/-- The status whitelist of `update_invoice_status`. -/
def validStatuses : List String := ["pending", "paid", "cancelled"]

/-- `update_invoice_status`: normalise to trimmed lowercase, reject anything
outside the whitelist, then store the new status on the row found by
primary key (if any) and audit. -/
def update_invoice_status (actor : String) (aok : Bool) (invoice_id : Nat)
    (status : String) (db : DB) : Except DBError Unit × DB :=
  let st := pyLower (pyStrip status)
  if validStatuses.contains st then
    match db.invoices.find? (fun r => r.id == invoice_id) with
    | none => (.ok (), db)
    | some _ =>
      let db' := { db with invoices := db.invoices.map (fun r =>
          if r.id == invoice_id then { r with status := st } else r) }
      (.ok (), log_audit aok actor "update" "invoice" (some invoice_id) db')
  else
    (.error (.valueError ("Invalid invoice status '" ++ st ++ "'. Allowed: cancelled, paid, pending.")), db)

/-- `delete_invoice`: soft-delete by primary key, audited. -/
def delete_invoice (actor : String) (aok : Bool) (invoice_id : Nat) (now : Nat)
    (db : DB) : Except DBError Unit × DB :=
  match db.invoices.find? (fun r => r.id == invoice_id) with
  | none => (.ok (), db)
  | some _ =>
    let db' := { db with invoices := db.invoices.map (fun r =>
        if r.id == invoice_id then { r with is_deleted := true, deleted_at := some now } else r) }
    (.ok (), log_audit aok actor "delete" "invoice" (some invoice_id) db')

/-- `restore_invoice`: clear the soft-delete state if currently deleted. -/
def restore_invoice (actor : String) (aok : Bool) (invoice_id : Nat)
    (db : DB) : Except DBError Unit × DB :=
  match db.invoices.find? (fun r => r.id == invoice_id) with
  | none => (.ok (), db)
  | some row =>
    if row.is_deleted then
      let db' := { db with invoices := db.invoices.map (fun r =>
          if r.id == invoice_id then { r with is_deleted := false, deleted_at := none } else r) }
      (.ok (), log_audit aok actor "restore" "invoice" (some invoice_id) db')
    else (.ok (), db)

/-- `get_all_invoices`: non-deleted invoices inner-joined to their customer
row, newest date first. -/
def get_all_invoices (db : DB) : List InvoiceRow :=
  sortByKeyDesc (fun r => r.date.key)
    (db.invoices.filter (fun i =>
      !i.is_deleted && db.customers.any (fun c => c.id == i.customer_id)))

/-! ## Gallery operations -/

/-- `get_all_gallery_images`: non-deleted images, newest upload first. -/
def get_all_gallery_images (db : DB) : List GalleryRow :=
  sortByKeyDesc (fun r => r.uploaded_at) (db.gallery.filter (fun r => !r.is_deleted))

/-- `get_published_gallery_images`: published, non-deleted images,
optionally restricted to one album, newest upload first. -/
def get_published_gallery_images (album : Option String) (db : DB) : List GalleryRow :=
  sortByKeyDesc (fun r => r.uploaded_at)
    (db.gallery.filter (fun r =>
      r.published && !r.is_deleted &&
        (match album with | none => true | some a => r.album == a)))

/-- `add_gallery_image`: insert a published image record and audit.
The source performs no validation of `filename`, `album` or `caption`. -/
def add_gallery_image (actor : String) (aok : Bool) (filename album : String)
    (caption : Option String) (now : Nat) (db : DB) : Except DBError Unit × DB :=
  let rid := freshId (db.gallery.map (fun r => r.id))
  let db' := { db with gallery := db.gallery ++ [⟨rid, filename, album, caption, true, now, false, none⟩] }
  (.ok (), log_audit aok actor "create" "gallery" (some rid) db')

/-- `delete_gallery_image`: soft-delete the record by primary key, audited;
returns the filename/album pair for file-system cleanup by the caller. -/
def delete_gallery_image (actor : String) (aok : Bool) (image_id : Nat) (now : Nat)
    (db : DB) : Except DBError (Option (String × String)) × DB :=
  match db.gallery.find? (fun r => r.id == image_id) with
  | none => (.ok none, db)
  | some row =>
    let db' := { db with gallery := db.gallery.map (fun r =>
        if r.id == image_id then { r with is_deleted := true, deleted_at := some now } else r) }
    (.ok (some (row.filename, row.album)), log_audit aok actor "delete" "gallery" (some image_id) db')

/-- `restore_gallery_image`: clear the soft-delete state if currently deleted. -/
def restore_gallery_image (actor : String) (aok : Bool) (image_id : Nat)
    (db : DB) : Except DBError Unit × DB :=
  match db.gallery.find? (fun r => r.id == image_id) with
  | none => (.ok (), db)
  | some row =>
    if row.is_deleted then
      let db' := { db with gallery := db.gallery.map (fun r =>
          if r.id == image_id then { r with is_deleted := false, deleted_at := none } else r) }
      (.ok (), log_audit aok actor "restore" "gallery" (some image_id) db')
    else (.ok (), db)

/-! ## Contact messages and pricing packages -/

/-- `add_contact_message`: insert an unread message and audit.
The source performs no validation of any field. -/
def add_contact_message (actor : String) (aok : Bool) (name email : String)
    (phone service : Option String) (message : String) (now : Nat)
    (db : DB) : Except DBError Unit × DB :=
  let rid := freshId (db.messages.map (fun r => r.id))
  let db' := { db with messages := db.messages ++ [⟨rid, name, email, phone, service, message, false, now⟩] }
  (.ok (), log_audit aok actor "create" "contact_message" (some rid) db')

/-- `add_pricing_package`: insert an active package and audit.
The source performs no validation of any field (in particular `price` is
stored as given, with no non-negativity check). -/
def add_pricing_package (actor : String) (aok : Bool) (name : String)
    (description : Option String) (price : Int) (price_label icon : String)
    (features : Option String) (is_featured : Bool) (display_order : Int)
    (now : Nat) (db : DB) : Except DBError Unit × DB :=
  let rid := freshId (db.packages.map (fun r => r.id))
  let db' := { db with packages := db.packages ++
      [⟨rid, name, description, price, price_label, icon, features, is_featured, display_order, true, now⟩] }
  (.ok (), log_audit aok actor "create" "pricing_package" (some rid) db')

/-! ## Invariants -/

/-- The customer balance invariant: no customer row has paid more than its
total, i.e. no balance `total_amount - amount_paid` is negative. -/
def paidLE (db : DB) : Prop :=
  ∀ c ∈ db.customers, c.amount_paid ≤ c.total_amount

/-- The invoice status invariant: up to lowercasing, every invoice status
lies in the whitelist of `update_invoice_status`. -/
def statusWF (db : DB) : Prop :=
  ∀ i ∈ db.invoices, pyLower i.status ∈ validStatuses

/-! ## Helper lemmas -/

theorem mem_insertByKeyDesc {α : Type} (key : α → Nat) (x a : α) (l : List α) :
    a ∈ insertByKeyDesc key x l ↔ a = x ∨ a ∈ l := by
  induction l with
  | nil => simp [insertByKeyDesc]
  | cons y ys ih =>
    simp only [insertByKeyDesc]
    split
    · simp [List.mem_cons]
    · simp only [List.mem_cons, ih]
      tauto

theorem mem_sortByKeyDesc {α : Type} (key : α → Nat) (a : α) (l : List α) :
    a ∈ sortByKeyDesc key l ↔ a ∈ l := by
  induction l with
  | nil => simp [sortByKeyDesc]
  | cons x xs ih => simp [sortByKeyDesc, mem_insertByKeyDesc, ih]

/-- `session.get(Model, n)` on a table whose primary keys are distinct finds
exactly the member row carrying that key. -/
theorem find?_id_eq_of_mem {α : Type} (idOf : α → Nat) (l : List α) (r : α) (n : Nat)
    (hnd : (l.map idOf).Nodup) (hr : r ∈ l) (hid : idOf r = n) :
    l.find? (fun x => idOf x == n) = some r := by
  induction l with
  | nil => cases hr
  | cons x xs ih =>
    have hnd' : ¬ idOf x ∈ xs.map idOf ∧ (xs.map idOf).Nodup := by
      simpa [List.nodup_cons] using hnd
    rcases List.mem_cons.1 hr with h | h
    · subst h
      exact List.find?_cons_of_pos _ (by simp [hid])
    · have hx : idOf x ≠ n := by
        intro he
        have hm : idOf r ∈ xs.map idOf := List.mem_map_of_mem idOf h
        rw [hid, ← he] at hm
        exact hnd'.1 hm
      rw [List.find?_cons_of_neg _ (by simp [hx])]
      exact ih hnd'.2 h

/-- A conditional in-place update keeps the list of primary keys, provided
the update does not change the key. -/
theorem map_ids_update {α : Type} (idOf : α → Nat) (f : α → α) (p : α → Bool) (l : List α)
    (hf : ∀ x, idOf (f x) = idOf x) :
    (l.map (fun x => if p x then f x else x)).map idOf = l.map idOf := by
  induction l with
  | nil => rfl
  | cons x xs ih =>
    simp only [List.map_cons, ih]
    congr 1
    split <;> simp [hf]

/-- The updated image of a matched row is in the updated table. -/
theorem mem_update_of_mem {α : Type} (f : α → α) (p : α → Bool) (l : List α) (r : α)
    (hr : r ∈ l) (hp : p r = true) :
    f r ∈ l.map (fun x => if p x then f x else x) := by
  have h := List.mem_map_of_mem (fun x => if p x then f x else x) hr
  simpa [hp] using h

/-- An unmatched row passes through a conditional update unchanged. -/
theorem mem_update_of_mem_other {α : Type} (f : α → α) (p : α → Bool) (l : List α) (r : α)
    (hr : r ∈ l) (hp : p r = false) :
    r ∈ l.map (fun x => if p x then f x else x) := by
  have h := List.mem_map_of_mem (fun x => if p x then f x else x) hr
  simpa [hp] using h

/-- If every candidate from attempt `i` on is taken, the generation loop
exhausts its attempts and reports the fatal error. -/
theorem genFrom_exhausted (tokens : Nat → String) (dateStr : String)
    (invoices : List InvoiceRow) :
    ∀ fuel i,
      (∀ k, i ≤ k → k < i + fuel →
        invoiceNumberTaken invoices (invCandidate dateStr (tokens k)) = true) →
      genFrom tokens dateStr invoices i fuel =
        .error (.runtimeError "Unable to generate unique invoice number.") := by
  intro fuel
  induction fuel with
  | zero => intro i _; rfl
  | succ n ih =>
    intro i hall
    rw [genFrom]
    simp only [hall i le_rfl (by omega), if_true]
    exact ih (i + 1) (fun k hk1 hk2 => hall k (by omega) (by omega))

/-- If attempt `j` is the first fresh candidate, the generation loop returns
exactly that candidate. -/
theorem genFrom_first_fresh (tokens : Nat → String) (dateStr : String)
    (invoices : List InvoiceRow) :
    ∀ fuel i j, i ≤ j → j < i + fuel →
      invoiceNumberTaken invoices (invCandidate dateStr (tokens j)) = false →
      (∀ k, i ≤ k → k < j →
        invoiceNumberTaken invoices (invCandidate dateStr (tokens k)) = true) →
      genFrom tokens dateStr invoices i fuel = .ok (invCandidate dateStr (tokens j)) := by
  intro fuel
  induction fuel with
  | zero =>
    intro i j hij hj _ _
    omega
  | succ n ih =>
    intro i j hij hj hfresh hbefore
    rw [genFrom]
    rcases Nat.eq_or_lt_of_le hij with he | hlt
    · subst he
      simp only [hfresh]
      simp
    · simp only [hbefore i le_rfl hlt, if_true]
      exact ih (i + 1) j (by omega) (by omega) hfresh
        (fun k hk1 hk2 => hbefore k (by omega) hk2)

/-- A number returned by the generation loop is fresh. -/
theorem genFrom_ok_fresh (tokens : Nat → String) (dateStr : String)
    (invoices : List InvoiceRow) :
    ∀ fuel i num,
      genFrom tokens dateStr invoices i fuel = .ok num →
      invoiceNumberTaken invoices num = false := by
  intro fuel
  induction fuel with
  | zero =>
    intro i num heq
    cases heq
  | succ n ih =>
    intro i num heq
    rw [genFrom] at heq
    by_cases ht : invoiceNumberTaken invoices (invCandidate dateStr (tokens i)) = true
    · simp only [ht, if_true] at heq
      exact ih (i + 1) num heq
    · rw [Bool.not_eq_true] at ht
      simp only [ht, Bool.false_eq_true, if_false, Except.ok.injEq] at heq
      rw [← heq]
      exact ht

/-- Python truthiness of the supplied invoice number, given that its
stripped form is non-blank. -/
theorem pyTruthy_of_trim_ne (o : Option String) (h : pyStrip (o.getD "") ≠ "") :
    pyTruthy o = true := by
  match o with
  | none =>
    simp only [Option.getD] at h
    exact absurd (by decide) h
  | some s =>
    simp only [Option.getD] at h
    have hs : s ≠ "" := by
      intro he
      rw [he] at h
      exact absurd (by decide) h
    simp [pyTruthy, hs]

/-- Every run of the `add_invoice` retry loop either raises with the
database unchanged, or commits exactly one new invoice row, with a fresh
number and default status `"Pending"`, plus its audit entry. -/
theorem addInvoiceLoop_cases (tokens : Nat → String) (dateStr actor : String)
    (aok : Bool) (inv_number : Option String) (customer_id : Nat) (d : Date)
    (amt : ℚ) (now : Nat) (db : DB) :
    ∀ fuel,
      (∃ e, addInvoiceLoop tokens dateStr actor aok inv_number customer_id d amt now db fuel = (.error e, db)) ∨
      (∃ num,
        invoiceNumberTaken db.invoices num = false ∧
        addInvoiceLoop tokens dateStr actor aok inv_number customer_id d amt now db fuel =
          (.ok num,
            log_audit aok actor "create" "invoice" (some (freshId (db.invoices.map (fun r => r.id))))
              { db with invoices := db.invoices ++
                  [⟨freshId (db.invoices.map (fun r => r.id)), num, customer_id, d, amt, "Pending", now, false, none⟩] })) := by
  intro fuel
  induction fuel with
  | zero =>
    left
    exact ⟨_, rfl⟩
  | succ n ih =>
    cases hgen : (if pyStrip (inv_number.getD "") ≠ "" then Except.ok (pyStrip (inv_number.getD ""))
        else _gen_invoice_number tokens dateStr db.invoices) with
    | error e =>
      rw [addInvoiceLoop]
      simp only [hgen]
      left
      exact ⟨e, rfl⟩
    | ok num =>
      rw [addInvoiceLoop]
      simp only [hgen]
      by_cases ht : invoiceNumberTaken db.invoices num = true
      · simp only [ht, if_true]
        by_cases htr : pyTruthy inv_number = true
        · simp only [htr, if_true]
          left
          exact ⟨_, rfl⟩
        · rw [Bool.not_eq_true] at htr
          simp only [htr, Bool.false_eq_true, if_false]
          exact ih
      · rw [Bool.not_eq_true] at ht
        simp only [ht, Bool.false_eq_true, if_false]
        right
        exact ⟨num, ht, rfl⟩

theorem log_audit_customers (aok : Bool) (u a e : String) (i : Option Nat) (db : DB) :
    (log_audit aok u a e i db).customers = db.customers := by
  rw [log_audit]; split <;> rfl

theorem log_audit_incomes (aok : Bool) (u a e : String) (i : Option Nat) (db : DB) :
    (log_audit aok u a e i db).incomes = db.incomes := by
  rw [log_audit]; split <;> rfl

theorem log_audit_expenses (aok : Bool) (u a e : String) (i : Option Nat) (db : DB) :
    (log_audit aok u a e i db).expenses = db.expenses := by
  rw [log_audit]; split <;> rfl

theorem log_audit_invoices (aok : Bool) (u a e : String) (i : Option Nat) (db : DB) :
    (log_audit aok u a e i db).invoices = db.invoices := by
  rw [log_audit]; split <;> rfl

theorem log_audit_gallery (aok : Bool) (u a e : String) (i : Option Nat) (db : DB) :
    (log_audit aok u a e i db).gallery = db.gallery := by
  rw [log_audit]; split <;> rfl

theorem log_audit_messages (aok : Bool) (u a e : String) (i : Option Nat) (db : DB) :
    (log_audit aok u a e i db).messages = db.messages := by
  rw [log_audit]; split <;> rfl

theorem log_audit_packages (aok : Bool) (u a e : String) (i : Option Nat) (db : DB) :
    (log_audit aok u a e i db).packages = db.packages := by
  rw [log_audit]; split <;> rfl

/-! ## Claims -/

/-- C1: when `add_invoice` is called with no invoice number (None or blank),
it generates candidates of the form `INV-<date>-<suffix>`, retrying up to 20
attempts until one does not collide with an existing invoice number; the
first fresh candidate is returned and an invoice is created with it, and if
all 20 attempts collide a `RuntimeError` is raised and no invoice is
created (the database is unchanged). -/
theorem C1_generated_invoice_number (tokens : Nat → String)
    (dateStr actor : String) (aok : Bool) (inv_number : Option String)
    (customer_id : Nat) (date : PyDate) (amount : Option ℚ) (now : Nat)
    (db : DB) (amt : ℚ) (d : Date) (j : Nat)
    (hblank : pyStrip (inv_number.getD "") = "")
    (hamt : _validate_amount amount "Invoice amount" = .ok amt)
    (hdate : _validate_date date "Invoice date" = .ok d) :
    ((∀ k, k < 20 → invoiceNumberTaken db.invoices (invCandidate dateStr (tokens k)) = true) →
      add_invoice tokens dateStr actor aok inv_number customer_id date amount now db =
        (.error (.runtimeError "Unable to generate unique invoice number."), db)) ∧
    (j < 20 →
      invoiceNumberTaken db.invoices (invCandidate dateStr (tokens j)) = false →
      (∀ k, k < j → invoiceNumberTaken db.invoices (invCandidate dateStr (tokens k)) = true) →
      add_invoice tokens dateStr actor aok inv_number customer_id date amount now db =
        (.ok (invCandidate dateStr (tokens j)),
          log_audit aok actor "create" "invoice" (some (freshId (db.invoices.map (fun r => r.id))))
            { db with invoices := db.invoices ++
                [⟨freshId (db.invoices.map (fun r => r.id)), invCandidate dateStr (tokens j),
                  customer_id, d, amt, "Pending", now, false, none⟩] })) := by
  have hunfold : add_invoice tokens dateStr actor aok inv_number customer_id date amount now db =
      addInvoiceLoop tokens dateStr actor aok inv_number customer_id d amt now db 20 := by
    rw [add_invoice, hamt, hdate]
  constructor
  · intro hall
    have hgen : _gen_invoice_number tokens dateStr db.invoices =
        .error (.runtimeError "Unable to generate unique invoice number.") :=
      genFrom_exhausted tokens dateStr db.invoices 20 0 (fun k _ hk2 => hall k (by omega))
    rw [hunfold, show (20 : Nat) = 19 + 1 from rfl, addInvoiceLoop]
    simp only [hblank, ne_eq, not_true_eq_false, if_false, hgen]
  · intro hj hfresh hbefore
    have hgen : _gen_invoice_number tokens dateStr db.invoices =
        .ok (invCandidate dateStr (tokens j)) :=
      genFrom_first_fresh tokens dateStr db.invoices 20 0 j (by omega) (by omega) hfresh
        (fun k _ hk2 => hbefore k hk2)
    rw [hunfold, show (20 : Nat) = 19 + 1 from rfl, addInvoiceLoop]
    simp only [hblank, ne_eq, not_true_eq_false, if_false, hgen, hfresh, Bool.false_eq_true]

/-- Witness for C1: a database holding `INV-20240101-AA`. With suffixes all
drawn as `AA` the 20 attempts are exhausted and `RuntimeError` is raised;
with suffixes `AA` then `BB` the second attempt succeeds and the invoice is
created with the generated number. -/
theorem C1_generated_invoice_number_witness :
    (add_invoice (fun _ => "AA") "20240101" "admin" true none 1 (.obj ⟨2024, 1, 5⟩)
        (some 5) 9 ⟨[], [], [], [⟨1, "INV-20240101-AA", 1, ⟨2024, 1, 1⟩, 5, "Pending", 0, false, none⟩], [], [], [], []⟩ =
      (.error (.runtimeError "Unable to generate unique invoice number."),
        ⟨[], [], [], [⟨1, "INV-20240101-AA", 1, ⟨2024, 1, 1⟩, 5, "Pending", 0, false, none⟩], [], [], [], []⟩)) ∧
    (add_invoice (fun k => if k == 0 then "AA" else "BB") "20240101" "admin" true none 1
        (.obj ⟨2024, 1, 5⟩) (some 5) 9
        ⟨[], [], [], [⟨1, "INV-20240101-AA", 1, ⟨2024, 1, 1⟩, 5, "Pending", 0, false, none⟩], [], [], [], []⟩ =
      (.ok "INV-20240101-BB",
        ⟨[], [], [],
          [⟨1, "INV-20240101-AA", 1, ⟨2024, 1, 1⟩, 5, "Pending", 0, false, none⟩,
           ⟨2, "INV-20240101-BB", 1, ⟨2024, 1, 5⟩, 5, "Pending", 9, false, none⟩],
          [], [], [],
          [⟨"admin", "create", "invoice", some 2⟩]⟩)) := by
  constructor
  · exact (C1_generated_invoice_number (fun _ => "AA") "20240101" "admin" true none 1
      (.obj ⟨2024, 1, 5⟩) (some 5) 9 _ 5 ⟨2024, 1, 5⟩ 0 (by decide) (by decide) (by decide)).1
      (by decide)
  · exact (C1_generated_invoice_number (fun k => if k == 0 then "AA" else "BB") "20240101"
      "admin" true none 1 (.obj ⟨2024, 1, 5⟩) (some 5) 9 _ 5 ⟨2024, 1, 5⟩ 1 (by decide)
      (by decide) (by decide)).2 (by decide) (by decide) (by decide)

/-- C2: `amount_paid ≤ total_amount` is an invariant of the customers table.
`add_customer` raises a `ValueError` and inserts nothing when the supplied
`amount_paid` exceeds `total_amount`; `update_customer_payment` raises a
`ValueError` and leaves the table unchanged when the new amount exceeds the
customer's total; and each customer-mutating operation preserves the
invariant (so balances never go negative). -/
theorem C2_amount_paid_le_total (actor : String) (aok : Bool)
    (name service : String) (amount_paid total_amount : Option ℚ)
    (contact : Option String) (now : Nat) (db : DB) (paid total : ℚ)
    (customer_id : Nat) (row : CustomerRow) :
    (_validate_amount total_amount "Total amount" = .ok total →
      _validate_amount amount_paid "Amount paid" = .ok paid →
      paid > total →
      ∃ msg, add_customer actor aok name service amount_paid total_amount contact now db =
        (.error (.valueError msg), db)) ∧
    (_validate_amount amount_paid "Amount paid" = .ok paid →
      db.customers.find? (fun r => r.id == customer_id) = some row →
      paid > row.total_amount →
      update_customer_payment actor aok customer_id amount_paid db =
        (.error (.valueError "Amount paid cannot exceed total amount."), db)) ∧
    (paidLE db →
      paidLE (add_customer actor aok name service amount_paid total_amount contact now db).2) ∧
    ((db.customers.map (fun r => r.id)).Nodup → paidLE db →
      paidLE (update_customer_payment actor aok customer_id amount_paid db).2) ∧
    (paidLE db → paidLE (delete_customer actor aok customer_id now db).2) ∧
    (paidLE db → paidLE (restore_customer actor aok customer_id db).2) := by
  refine ⟨?_, ?_, ?_, ?_, ?_, ?_⟩
  · intro htot hpaid hgt
    rw [add_customer]
    by_cases hn : pyStrip name = ""
    · rw [if_pos hn]; exact ⟨_, rfl⟩
    · rw [if_neg hn]
      by_cases hs : pyStrip service = ""
      · rw [if_pos hs]; exact ⟨_, rfl⟩
      · rw [if_neg hs]
        simp only [htot, hpaid]
        rw [if_pos hgt]
        exact ⟨_, rfl⟩
  · intro hpaid hfind hgt
    rw [update_customer_payment]
    simp only [hpaid, hfind]
    rw [if_pos hgt]
  · intro hinv
    rw [add_customer]
    by_cases hn : pyStrip name = ""
    · rw [if_pos hn]; exact hinv
    · rw [if_neg hn]
      by_cases hs : pyStrip service = ""
      · rw [if_pos hs]; exact hinv
      · rw [if_neg hs]
        cases htot : _validate_amount total_amount "Total amount" with
        | error e => exact hinv
        | ok t =>
          cases hpaid : _validate_amount amount_paid "Amount paid" with
          | error e => exact hinv
          | ok p =>
            simp only []
            by_cases hgt : p > t
            · rw [if_pos hgt]; exact hinv
            · rw [if_neg hgt]
              intro c hc
              rw [log_audit_customers] at hc
              simp only [List.mem_append, List.mem_singleton] at hc
              rcases hc with hc | hc
              · exact hinv c hc
              · subst hc
                simpa using le_of_not_lt hgt
  · intro hnd hinv
    rw [update_customer_payment]
    cases hpaid : _validate_amount amount_paid "Amount paid" with
    | error e => exact hinv
    | ok p =>
      cases hfind : db.customers.find? (fun r => r.id == customer_id) with
      | none => exact hinv
      | some r =>
        simp only []
        by_cases hgt : p > r.total_amount
        · rw [if_pos hgt]; exact hinv
        · rw [if_neg hgt]
          intro c hc
          rw [log_audit_customers] at hc
          rcases List.mem_map.1 hc with ⟨c₀, hc₀, hceq⟩
          by_cases hid : (c₀.id == customer_id) = true
          · have hr : r ∈ db.customers := List.mem_of_find?_eq_some hfind
            have hrid := List.find?_some hfind
            have hco : c₀ = r := by
              refine List.inj_on_of_nodup_map hnd hc₀ hr ?_
              have h1 : c₀.id = customer_id := by simpa using hid
              have h2 : r.id = customer_id := by simpa using hrid
              simp [h1, h2]
            rw [hid] at hceq
            simp only [if_true] at hceq
            rw [← hceq]
            simpa [hco] using le_of_not_lt hgt
          · rw [Bool.not_eq_true] at hid
            rw [hid] at hceq
            simp only [Bool.false_eq_true, if_false] at hceq
            rw [← hceq]
            exact hinv c₀ hc₀
  · intro hinv
    rw [delete_customer]
    cases hfind : db.customers.find? (fun r => r.id == customer_id) with
    | none => exact hinv
    | some r =>
      simp only []
      intro c hc
      rw [log_audit_customers] at hc
      rcases List.mem_map.1 hc with ⟨c₀, hc₀, hceq⟩
      have hle := hinv c₀ hc₀
      rcases hceq with rfl | _
      · split <;> simpa using hle
  · intro hinv
    rw [restore_customer]
    cases hfind : db.customers.find? (fun r => r.id == customer_id) with
    | none => exact hinv
    | some r =>
      simp only []
      by_cases hdel : r.is_deleted = true
      · rw [if_pos hdel]
        intro c hc
        rw [log_audit_customers] at hc
        rcases List.mem_map.1 hc with ⟨c₀, hc₀, hceq⟩
        have hle := hinv c₀ hc₀
        rcases hceq with rfl | _
        · split <;> simpa using hle
      · rw [Bool.not_eq_true] at hdel
        simp only [hdel, Bool.false_eq_true, if_false]
        exact hinv

/-- Witness for C2: on a database with one customer (paid 3 of 10), the
overpaid insert and the overpaid payment update both raise `ValueError`
leaving the table unchanged, and the invariant survives each operation. -/
theorem C2_amount_paid_le_total_witness :
    (∃ msg, add_customer "admin" true "Bob" "shoot" (some 7) (some 5) none 3
        ⟨[], [], [⟨1, "Alice", "wedding", 3, 10, none, 0, false, none⟩], [], [], [], [], []⟩ =
      (.error (.valueError msg),
        ⟨[], [], [⟨1, "Alice", "wedding", 3, 10, none, 0, false, none⟩], [], [], [], [], []⟩)) ∧
    update_customer_payment "admin" true 1 (some 12)
        ⟨[], [], [⟨1, "Alice", "wedding", 3, 10, none, 0, false, none⟩], [], [], [], [], []⟩ =
      (.error (.valueError "Amount paid cannot exceed total amount."),
        ⟨[], [], [⟨1, "Alice", "wedding", 3, 10, none, 0, false, none⟩], [], [], [], [], []⟩) ∧
    paidLE (add_customer "admin" true "Bob" "shoot" (some 2) (some 5) none 3
        ⟨[], [], [⟨1, "Alice", "wedding", 3, 10, none, 0, false, none⟩], [], [], [], [], []⟩).2 ∧
    paidLE (update_customer_payment "admin" true 1 (some 9)
        ⟨[], [], [⟨1, "Alice", "wedding", 3, 10, none, 0, false, none⟩], [], [], [], [], []⟩).2 ∧
    paidLE (delete_customer "admin" true 1 4
        ⟨[], [], [⟨1, "Alice", "wedding", 3, 10, none, 0, false, none⟩], [], [], [], [], []⟩).2 ∧
    paidLE (restore_customer "admin" true 1
        ⟨[], [], [⟨1, "Alice", "wedding", 3, 10, none, 0, false, none⟩], [], [], [], [], []⟩).2 := by
  refine ⟨?_, ?_, ?_, ?_, ?_, ?_⟩
  · exact (C2_amount_paid_le_total "admin" true "Bob" "shoot" (some 7) (some 5) none 3
      ⟨[], [], [⟨1, "Alice", "wedding", 3, 10, none, 0, false, none⟩], [], [], [], [], []⟩
      7 5 1 ⟨1, "Alice", "wedding", 3, 10, none, 0, false, none⟩).1
      (by decide) (by decide) (by decide)
  · exact (C2_amount_paid_le_total "admin" true "Bob" "shoot" (some 12) (some 5) none 3
      ⟨[], [], [⟨1, "Alice", "wedding", 3, 10, none, 0, false, none⟩], [], [], [], [], []⟩
      12 5 1 ⟨1, "Alice", "wedding", 3, 10, none, 0, false, none⟩).2.1
      (by decide) (by decide) (by decide)
  · exact (C2_amount_paid_le_total "admin" true "Bob" "shoot" (some 2) (some 5) none 3
      ⟨[], [], [⟨1, "Alice", "wedding", 3, 10, none, 0, false, none⟩], [], [], [], [], []⟩
      2 5 1 ⟨1, "Alice", "wedding", 3, 10, none, 0, false, none⟩).2.2.1
      (by unfold paidLE; decide)
  · exact (C2_amount_paid_le_total "admin" true "Bob" "shoot" (some 9) (some 5) none 3
      ⟨[], [], [⟨1, "Alice", "wedding", 3, 10, none, 0, false, none⟩], [], [], [], [], []⟩
      9 5 1 ⟨1, "Alice", "wedding", 3, 10, none, 0, false, none⟩).2.2.2.1
      (by decide) (by unfold paidLE; decide)
  · exact (C2_amount_paid_le_total "admin" true "Bob" "shoot" (some 9) (some 5) none 4
      ⟨[], [], [⟨1, "Alice", "wedding", 3, 10, none, 0, false, none⟩], [], [], [], [], []⟩
      9 5 1 ⟨1, "Alice", "wedding", 3, 10, none, 0, false, none⟩).2.2.2.2.1
      (by unfold paidLE; decide)
  · exact (C2_amount_paid_le_total "admin" true "Bob" "shoot" (some 9) (some 5) none 4
      ⟨[], [], [⟨1, "Alice", "wedding", 3, 10, none, 0, false, none⟩], [], [], [], [], []⟩
      9 5 1 ⟨1, "Alice", "wedding", 3, 10, none, 0, false, none⟩).2.2.2.2.2
      (by unfold paidLE; decide)

/-- C3: a soft-deleted row is excluded from the listing of its table and
contributes nothing to the table's total (removing it from the table leaves
the total unchanged), yet it is retained so `restore_income` can bring it
back; the exclusion holds for income, expenses, customers, invoices and
gallery listings alike. -/
theorem C3_soft_delete_exclusion (db : DB) (actor : String) (aok : Bool)
    (album : Option String) :
    (∀ r ∈ db.incomes, r.is_deleted = true → r ∉ get_all_income db) ∧
    (∀ (l₁ l₂ : List IncomeRow) (r : IncomeRow),
      db.incomes = l₁ ++ r :: l₂ → r.is_deleted = true →
      get_total_income db = get_total_income { db with incomes := l₁ ++ l₂ }) ∧
    (∀ r ∈ db.incomes, r.is_deleted = true →
      (db.incomes.map (fun x => x.id)).Nodup →
      { r with is_deleted := false, deleted_at := none } ∈
        (restore_income actor aok r.id db).2.incomes) ∧
    (∀ r ∈ db.expenses, r.is_deleted = true → r ∉ get_all_expenses db) ∧
    (∀ (l₁ l₂ : List ExpenseRow) (r : ExpenseRow),
      db.expenses = l₁ ++ r :: l₂ → r.is_deleted = true →
      get_total_expenses db = get_total_expenses { db with expenses := l₁ ++ l₂ }) ∧
    (∀ r ∈ db.customers, r.is_deleted = true → r ∉ get_all_customers db) ∧
    (∀ (l₁ l₂ : List CustomerRow) (r : CustomerRow),
      db.customers = l₁ ++ r :: l₂ → r.is_deleted = true →
      get_total_pending_balance db =
        get_total_pending_balance { db with customers := l₁ ++ l₂ }) ∧
    (∀ r ∈ db.invoices, r.is_deleted = true → r ∉ get_all_invoices db) ∧
    (∀ r ∈ db.gallery, r.is_deleted = true →
      r ∉ get_all_gallery_images db ∧ r ∉ get_published_gallery_images album db) := by
  refine ⟨?_, ?_, ?_, ?_, ?_, ?_, ?_, ?_, ?_⟩
  · intro r _ hdel hmem
    rw [get_all_income, mem_sortByKeyDesc] at hmem
    have := (List.mem_filter.1 hmem).2
    rw [hdel] at this
    cases this
  · intro l₁ l₂ r hsplit hdel
    simp [get_total_income, hsplit, List.filter_append, List.filter_cons, hdel]
  · intro r hr hdel hnd
    rw [restore_income]
    rw [find?_id_eq_of_mem (fun x => x.id) db.incomes r r.id hnd hr rfl]
    simp only [hdel, if_true]
    rw [log_audit_incomes]
    exact mem_update_of_mem _ _ _ r hr (by simp)
  · intro r _ hdel hmem
    rw [get_all_expenses, mem_sortByKeyDesc] at hmem
    have := (List.mem_filter.1 hmem).2
    rw [hdel] at this
    cases this
  · intro l₁ l₂ r hsplit hdel
    simp [get_total_expenses, hsplit, List.filter_append, List.filter_cons, hdel]
  · intro r _ hdel hmem
    rw [get_all_customers, mem_sortByKeyDesc] at hmem
    have := (List.mem_filter.1 hmem).2
    rw [hdel] at this
    cases this
  · intro l₁ l₂ r hsplit hdel
    simp [get_total_pending_balance, hsplit, List.filter_append, List.filter_cons, hdel]
  · intro r _ hdel hmem
    rw [get_all_invoices, mem_sortByKeyDesc] at hmem
    have := (List.mem_filter.1 hmem).2
    rw [hdel] at this
    simp at this
  · intro r _ hdel
    constructor
    · intro hmem
      rw [get_all_gallery_images, mem_sortByKeyDesc] at hmem
      have := (List.mem_filter.1 hmem).2
      rw [hdel] at this
      cases this
    · intro hmem
      rw [get_published_gallery_images, mem_sortByKeyDesc] at hmem
      have := (List.mem_filter.1 hmem).2
      rw [hdel] at this
      simp at this

/-- Witness for C3: in a database holding one soft-deleted row per table
(plus one live income row), the deleted rows are absent from every listing,
the income total ignores the deleted income row, and restoring brings the
income row back. -/
theorem C3_soft_delete_exclusion_witness :
    (⟨1, ⟨2024, 1, 2⟩, "a", "b", 5, 0, true, some 3⟩ : IncomeRow) ∉
      get_all_income ⟨[⟨1, ⟨2024, 1, 2⟩, "a", "b", 5, 0, true, some 3⟩,
          ⟨2, ⟨2024, 1, 3⟩, "c", "d", 7, 0, false, none⟩],
        [⟨1, ⟨2024, 1, 2⟩, "a", "b", 5, 0, true, some 3⟩],
        [⟨1, "A", "w", 1, 4, none, 0, true, some 3⟩],
        [⟨1, "INV-1", 1, ⟨2024, 1, 2⟩, 5, "Pending", 0, true, some 3⟩],
        [⟨1, "f.jpg", "wedding", none, true, 0, true, some 3⟩], [], [], []⟩ ∧
    get_total_income ⟨[⟨1, ⟨2024, 1, 2⟩, "a", "b", 5, 0, true, some 3⟩,
          ⟨2, ⟨2024, 1, 3⟩, "c", "d", 7, 0, false, none⟩],
        [⟨1, ⟨2024, 1, 2⟩, "a", "b", 5, 0, true, some 3⟩],
        [⟨1, "A", "w", 1, 4, none, 0, true, some 3⟩],
        [⟨1, "INV-1", 1, ⟨2024, 1, 2⟩, 5, "Pending", 0, true, some 3⟩],
        [⟨1, "f.jpg", "wedding", none, true, 0, true, some 3⟩], [], [], []⟩ =
      get_total_income ⟨[⟨2, ⟨2024, 1, 3⟩, "c", "d", 7, 0, false, none⟩],
        [⟨1, ⟨2024, 1, 2⟩, "a", "b", 5, 0, true, some 3⟩],
        [⟨1, "A", "w", 1, 4, none, 0, true, some 3⟩],
        [⟨1, "INV-1", 1, ⟨2024, 1, 2⟩, 5, "Pending", 0, true, some 3⟩],
        [⟨1, "f.jpg", "wedding", none, true, 0, true, some 3⟩], [], [], []⟩ ∧
    (⟨1, ⟨2024, 1, 2⟩, "a", "b", 5, 0, false, none⟩ : IncomeRow) ∈
      (restore_income "admin" true 1 ⟨[⟨1, ⟨2024, 1, 2⟩, "a", "b", 5, 0, true, some 3⟩,
          ⟨2, ⟨2024, 1, 3⟩, "c", "d", 7, 0, false, none⟩],
        [⟨1, ⟨2024, 1, 2⟩, "a", "b", 5, 0, true, some 3⟩],
        [⟨1, "A", "w", 1, 4, none, 0, true, some 3⟩],
        [⟨1, "INV-1", 1, ⟨2024, 1, 2⟩, 5, "Pending", 0, true, some 3⟩],
        [⟨1, "f.jpg", "wedding", none, true, 0, true, some 3⟩], [], [], []⟩).2.incomes ∧
    (⟨1, "INV-1", 1, ⟨2024, 1, 2⟩, 5, "Pending", 0, true, some 3⟩ : InvoiceRow) ∉
      get_all_invoices ⟨[⟨1, ⟨2024, 1, 2⟩, "a", "b", 5, 0, true, some 3⟩,
          ⟨2, ⟨2024, 1, 3⟩, "c", "d", 7, 0, false, none⟩],
        [⟨1, ⟨2024, 1, 2⟩, "a", "b", 5, 0, true, some 3⟩],
        [⟨1, "A", "w", 1, 4, none, 0, true, some 3⟩],
        [⟨1, "INV-1", 1, ⟨2024, 1, 2⟩, 5, "Pending", 0, true, some 3⟩],
        [⟨1, "f.jpg", "wedding", none, true, 0, true, some 3⟩], [], [], []⟩ ∧
    (⟨1, "f.jpg", "wedding", none, true, 0, true, some 3⟩ : GalleryRow) ∉
      get_all_gallery_images ⟨[⟨1, ⟨2024, 1, 2⟩, "a", "b", 5, 0, true, some 3⟩,
          ⟨2, ⟨2024, 1, 3⟩, "c", "d", 7, 0, false, none⟩],
        [⟨1, ⟨2024, 1, 2⟩, "a", "b", 5, 0, true, some 3⟩],
        [⟨1, "A", "w", 1, 4, none, 0, true, some 3⟩],
        [⟨1, "INV-1", 1, ⟨2024, 1, 2⟩, 5, "Pending", 0, true, some 3⟩],
        [⟨1, "f.jpg", "wedding", none, true, 0, true, some 3⟩], [], [], []⟩ := by
  refine ⟨?_, ?_, ?_, ?_, ?_⟩
  · exact (C3_soft_delete_exclusion ⟨[⟨1, ⟨2024, 1, 2⟩, "a", "b", 5, 0, true, some 3⟩,
        ⟨2, ⟨2024, 1, 3⟩, "c", "d", 7, 0, false, none⟩],
      [⟨1, ⟨2024, 1, 2⟩, "a", "b", 5, 0, true, some 3⟩],
      [⟨1, "A", "w", 1, 4, none, 0, true, some 3⟩],
      [⟨1, "INV-1", 1, ⟨2024, 1, 2⟩, 5, "Pending", 0, true, some 3⟩],
      [⟨1, "f.jpg", "wedding", none, true, 0, true, some 3⟩], [], [], []⟩
      "admin" true none).1 _ (by decide) (by decide)
  · exact (C3_soft_delete_exclusion ⟨[⟨1, ⟨2024, 1, 2⟩, "a", "b", 5, 0, true, some 3⟩,
        ⟨2, ⟨2024, 1, 3⟩, "c", "d", 7, 0, false, none⟩],
      [⟨1, ⟨2024, 1, 2⟩, "a", "b", 5, 0, true, some 3⟩],
      [⟨1, "A", "w", 1, 4, none, 0, true, some 3⟩],
      [⟨1, "INV-1", 1, ⟨2024, 1, 2⟩, 5, "Pending", 0, true, some 3⟩],
      [⟨1, "f.jpg", "wedding", none, true, 0, true, some 3⟩], [], [], []⟩
      "admin" true none).2.1 []
      [⟨2, ⟨2024, 1, 3⟩, "c", "d", 7, 0, false, none⟩]
      ⟨1, ⟨2024, 1, 2⟩, "a", "b", 5, 0, true, some 3⟩ (by decide) (by decide)
  · exact (C3_soft_delete_exclusion ⟨[⟨1, ⟨2024, 1, 2⟩, "a", "b", 5, 0, true, some 3⟩,
        ⟨2, ⟨2024, 1, 3⟩, "c", "d", 7, 0, false, none⟩],
      [⟨1, ⟨2024, 1, 2⟩, "a", "b", 5, 0, true, some 3⟩],
      [⟨1, "A", "w", 1, 4, none, 0, true, some 3⟩],
      [⟨1, "INV-1", 1, ⟨2024, 1, 2⟩, 5, "Pending", 0, true, some 3⟩],
      [⟨1, "f.jpg", "wedding", none, true, 0, true, some 3⟩], [], [], []⟩
      "admin" true none).2.2.1 ⟨1, ⟨2024, 1, 2⟩, "a", "b", 5, 0, true, some 3⟩
      (by decide) (by decide) (by decide)
  · exact (C3_soft_delete_exclusion ⟨[⟨1, ⟨2024, 1, 2⟩, "a", "b", 5, 0, true, some 3⟩,
        ⟨2, ⟨2024, 1, 3⟩, "c", "d", 7, 0, false, none⟩],
      [⟨1, ⟨2024, 1, 2⟩, "a", "b", 5, 0, true, some 3⟩],
      [⟨1, "A", "w", 1, 4, none, 0, true, some 3⟩],
      [⟨1, "INV-1", 1, ⟨2024, 1, 2⟩, 5, "Pending", 0, true, some 3⟩],
      [⟨1, "f.jpg", "wedding", none, true, 0, true, some 3⟩], [], [], []⟩
      "admin" true none).2.2.2.2.2.2.2.1 _ (by decide) (by decide)
  · exact ((C3_soft_delete_exclusion ⟨[⟨1, ⟨2024, 1, 2⟩, "a", "b", 5, 0, true, some 3⟩,
        ⟨2, ⟨2024, 1, 3⟩, "c", "d", 7, 0, false, none⟩],
      [⟨1, ⟨2024, 1, 2⟩, "a", "b", 5, 0, true, some 3⟩],
      [⟨1, "A", "w", 1, 4, none, 0, true, some 3⟩],
      [⟨1, "INV-1", 1, ⟨2024, 1, 2⟩, 5, "Pending", 0, true, some 3⟩],
      [⟨1, "f.jpg", "wedding", none, true, 0, true, some 3⟩], [], [], []⟩
      "admin" true none).2.2.2.2.2.2.2.2 _ (by decide) (by decide)).1

/-- Counterexample to C4 as stated: a newly created invoice receives the
default status `"Pending"` (capital P, `models.py`), which is not an element
of the whitelist `{pending, paid, cancelled}` enforced by
`update_invoice_status`; so not every reachable invoice has its status
literally in that set. -/
theorem C4_status_default_counterexample :
    ((add_invoice (fun _ => "AA") "20240101" "admin" true (some "X1") 1 (.obj ⟨2024, 1, 5⟩)
        (some 5) 9 ⟨[], [], [⟨1, "A", "w", 0, 5, none, 0, false, none⟩], [], [], [], [], []⟩).2.invoices.map
      (fun i => i.status)) = ["Pending"] ∧ "Pending" ∉ validStatuses := by
  constructor
  · decide
  · decide

/-- C4 (amended): invoice statuses are in `{pending, paid, cancelled}` up to
lowercasing. `update_invoice_status` raises a `ValueError` and leaves the
table unchanged whenever the trimmed, lowercased status is outside the
whitelist; and both `update_invoice_status` and `add_invoice` (whose new
rows carry the default status `"Pending"`) preserve the invariant that every
invoice status lowercases into the whitelist. -/
theorem C4_status_whitelist (tokens : Nat → String) (dateStr actor : String)
    (aok : Bool) (invoice_id : Nat) (status : String) (inv_number : Option String)
    (customer_id : Nat) (date : PyDate) (amount : Option ℚ) (now : Nat) (db : DB) :
    (validStatuses.contains (pyLower (pyStrip status)) = false →
      update_invoice_status actor aok invoice_id status db =
        (.error (.valueError ("Invalid invoice status '" ++ pyLower (pyStrip status) ++
          "'. Allowed: cancelled, paid, pending.")), db)) ∧
    (statusWF db → statusWF (update_invoice_status actor aok invoice_id status db).2) ∧
    (statusWF db →
      statusWF (add_invoice tokens dateStr actor aok inv_number customer_id date amount now db).2) := by
  refine ⟨?_, ?_, ?_⟩
  · intro hbad
    rw [update_invoice_status]
    simp only [hbad, Bool.false_eq_true, if_false]
  · intro hwf
    rw [update_invoice_status]
    by_cases hct : validStatuses.contains (pyLower (pyStrip status)) = true
    · simp only [hct, if_true]
      cases hfind : db.invoices.find? (fun r => r.id == invoice_id) with
      | none => exact hwf
      | some r =>
        simp only []
        intro i hi
        rw [log_audit_invoices] at hi
        rcases List.mem_map.1 hi with ⟨i₀, hi₀, hieq⟩
        have hm : pyLower (pyStrip status) ∈ validStatuses := by
          have := List.mem_of_elem_eq_true hct
          exact this
        by_cases hid : (i₀.id == invoice_id) = true
        · rw [hid] at hieq
          simp only [if_true] at hieq
          rw [← hieq]
          show pyLower (pyLower (pyStrip status)) ∈ validStatuses
          have hm3 : pyLower (pyStrip status) = "pending" ∨ pyLower (pyStrip status) = "paid" ∨
              pyLower (pyStrip status) = "cancelled" := by
            simpa [validStatuses] using hm
          rcases hm3 with h | h | h <;> rw [h] <;> decide
        · rw [Bool.not_eq_true] at hid
          rw [hid] at hieq
          simp only [Bool.false_eq_true, if_false] at hieq
          rw [← hieq]
          exact hwf i₀ hi₀
    · rw [Bool.not_eq_true] at hct
      simp only [hct, Bool.false_eq_true, if_false]
      exact hwf
  · intro hwf
    rw [add_invoice]
    cases hamt : _validate_amount amount "Invoice amount" with
    | error e => exact hwf
    | ok amt =>
      cases hdate : _validate_date date "Invoice date" with
      | error e => exact hwf
      | ok d =>
        simp only []
        rcases addInvoiceLoop_cases tokens dateStr actor aok inv_number customer_id d amt now db 20 with
          ⟨e, heq⟩ | ⟨num, _, heq⟩
        · rw [heq]
          exact hwf
        · rw [heq]
          intro i hi
          rw [log_audit_invoices] at hi
          simp only [List.mem_append, List.mem_singleton] at hi
          rcases hi with hi | hi
          · exact hwf i hi
          · subst hi
            show pyLower "Pending" ∈ validStatuses
            decide

/-- Witness for C4 (amended): a bogus status is rejected unchanged, and the
lowercase-whitelist invariant survives a status update and an invoice
creation on a concrete database. -/
theorem C4_status_whitelist_witness :
    update_invoice_status "admin" true 1 "bogus"
        ⟨[], [], [], [⟨1, "INV-1", 1, ⟨2024, 1, 2⟩, 5, "Pending", 0, false, none⟩], [], [], [], []⟩ =
      (.error (.valueError "Invalid invoice status 'bogus'. Allowed: cancelled, paid, pending."),
        ⟨[], [], [], [⟨1, "INV-1", 1, ⟨2024, 1, 2⟩, 5, "Pending", 0, false, none⟩], [], [], [], []⟩) ∧
    statusWF (update_invoice_status "admin" true 1 "Paid"
        ⟨[], [], [], [⟨1, "INV-1", 1, ⟨2024, 1, 2⟩, 5, "Pending", 0, false, none⟩], [], [], [], []⟩).2 ∧
    statusWF (add_invoice (fun _ => "AA") "20240101" "admin" true none 1 (.obj ⟨2024, 1, 5⟩)
        (some 5) 9 ⟨[], [], [], [⟨1, "INV-1", 1, ⟨2024, 1, 2⟩, 5, "Pending", 0, false, none⟩], [], [], [], []⟩).2 := by
  refine ⟨?_, ?_, ?_⟩
  · exact (C4_status_whitelist (fun _ => "AA") "20240101" "admin" true 1 "bogus" none 1
      (.obj ⟨2024, 1, 5⟩) (some 5) 9
      ⟨[], [], [], [⟨1, "INV-1", 1, ⟨2024, 1, 2⟩, 5, "Pending", 0, false, none⟩], [], [], [], []⟩).1
      (by decide)
  · exact (C4_status_whitelist (fun _ => "AA") "20240101" "admin" true 1 "Paid" none 1
      (.obj ⟨2024, 1, 5⟩) (some 5) 9
      ⟨[], [], [], [⟨1, "INV-1", 1, ⟨2024, 1, 2⟩, 5, "Pending", 0, false, none⟩], [], [], [], []⟩).2.1
      (by unfold statusWF; decide)
  · exact (C4_status_whitelist (fun _ => "AA") "20240101" "admin" true 1 "Paid" none 1
      (.obj ⟨2024, 1, 5⟩) (some 5) 9
      ⟨[], [], [], [⟨1, "INV-1", 1, ⟨2024, 1, 2⟩, 5, "Pending", 0, false, none⟩], [], [], [], []⟩).2.2
      (by unfold statusWF; decide)

/-- C5: `delete_customer` on an existing customer succeeds, soft-deletes the
customer row (setting `is_deleted` and `deleted_at`) and soft-deletes every
invoice belonging to that customer, all within the single operation; rows of
other customers and all other tables are untouched. -/
theorem C5_delete_customer_cascade (actor : String) (aok : Bool)
    (customer_id : Nat) (now : Nat) (db : DB) (c : CustomerRow)
    (hfind : db.customers.find? (fun r => r.id == customer_id) = some c) :
    (delete_customer actor aok customer_id now db).1 = .ok () ∧
    (∀ r ∈ db.customers, r.id = customer_id →
      { r with is_deleted := true, deleted_at := some now } ∈
        (delete_customer actor aok customer_id now db).2.customers) ∧
    (∀ i ∈ db.invoices, i.customer_id = customer_id →
      { i with is_deleted := true, deleted_at := some now } ∈
        (delete_customer actor aok customer_id now db).2.invoices) ∧
    (∀ r ∈ (delete_customer actor aok customer_id now db).2.customers,
      r.id = customer_id → r.is_deleted = true ∧ r.deleted_at = some now) ∧
    (∀ i ∈ (delete_customer actor aok customer_id now db).2.invoices,
      i.customer_id = customer_id → i.is_deleted = true ∧ i.deleted_at = some now) ∧
    (∀ r ∈ db.customers, r.id ≠ customer_id →
      r ∈ (delete_customer actor aok customer_id now db).2.customers) ∧
    (∀ i ∈ db.invoices, i.customer_id ≠ customer_id →
      i ∈ (delete_customer actor aok customer_id now db).2.invoices) ∧
    (delete_customer actor aok customer_id now db).2.incomes = db.incomes ∧
    (delete_customer actor aok customer_id now db).2.expenses = db.expenses ∧
    (delete_customer actor aok customer_id now db).2.gallery = db.gallery := by
  rw [delete_customer, hfind]
  simp only []
  refine ⟨by trivial, ?_, ?_, ?_, ?_, ?_, ?_, ?_, ?_, ?_⟩
  · intro r hr hid
    rw [log_audit_customers]
    exact mem_update_of_mem _ _ _ r hr (by simp [hid])
  · intro i hi hid
    rw [log_audit_invoices]
    exact mem_update_of_mem _ _ _ i hi (by simp [hid])
  · intro r hr hid
    rw [log_audit_customers] at hr
    rcases List.mem_map.1 hr with ⟨r₀, _, hreq⟩
    by_cases h0 : (r₀.id == customer_id) = true
    · rw [h0] at hreq
      simp only [if_true] at hreq
      rw [← hreq]
      exact ⟨rfl, rfl⟩
    · rw [Bool.not_eq_true] at h0
      rw [h0] at hreq
      simp only [Bool.false_eq_true, if_false] at hreq
      rw [← hreq] at hid
      rw [hid] at h0
      simp at h0
  · intro i hi hid
    rw [log_audit_invoices] at hi
    rcases List.mem_map.1 hi with ⟨i₀, _, hieq⟩
    by_cases h0 : (i₀.customer_id == customer_id) = true
    · rw [h0] at hieq
      simp only [if_true] at hieq
      rw [← hieq]
      exact ⟨rfl, rfl⟩
    · rw [Bool.not_eq_true] at h0
      rw [h0] at hieq
      simp only [Bool.false_eq_true, if_false] at hieq
      rw [← hieq] at hid
      rw [hid] at h0
      simp at h0
  · intro r hr hid
    rw [log_audit_customers]
    exact mem_update_of_mem_other _ _ _ r hr (by simp [hid])
  · intro i hi hid
    rw [log_audit_invoices]
    exact mem_update_of_mem_other _ _ _ i hi (by simp [hid])
  · rw [log_audit_incomes]
  · rw [log_audit_expenses]
  · rw [log_audit_gallery]

/-- Witness for C5: deleting customer 1 soft-deletes their invoice
(and not the invoice of customer 2). -/
theorem C5_delete_customer_cascade_witness :
    (delete_customer "admin" true 1 9
      ⟨[], [], [⟨1, "A", "w", 0, 5, none, 0, false, none⟩],
        [⟨1, "INV-1", 1, ⟨2024, 1, 2⟩, 5, "Pending", 0, false, none⟩,
         ⟨2, "INV-2", 2, ⟨2024, 1, 3⟩, 6, "Pending", 0, false, none⟩],
        [], [], [], []⟩).1 = .ok () ∧
    (⟨1, "INV-1", 1, ⟨2024, 1, 2⟩, 5, "Pending", 0, true, some 9⟩ : InvoiceRow) ∈
      (delete_customer "admin" true 1 9
        ⟨[], [], [⟨1, "A", "w", 0, 5, none, 0, false, none⟩],
          [⟨1, "INV-1", 1, ⟨2024, 1, 2⟩, 5, "Pending", 0, false, none⟩,
           ⟨2, "INV-2", 2, ⟨2024, 1, 3⟩, 6, "Pending", 0, false, none⟩],
          [], [], [], []⟩).2.invoices ∧
    (⟨2, "INV-2", 2, ⟨2024, 1, 3⟩, 6, "Pending", 0, false, none⟩ : InvoiceRow) ∈
      (delete_customer "admin" true 1 9
        ⟨[], [], [⟨1, "A", "w", 0, 5, none, 0, false, none⟩],
          [⟨1, "INV-1", 1, ⟨2024, 1, 2⟩, 5, "Pending", 0, false, none⟩,
           ⟨2, "INV-2", 2, ⟨2024, 1, 3⟩, 6, "Pending", 0, false, none⟩],
          [], [], [], []⟩).2.invoices ∧
    (⟨1, "A", "w", 0, 5, none, 0, true, some 9⟩ : CustomerRow) ∈
      (delete_customer "admin" true 1 9
        ⟨[], [], [⟨1, "A", "w", 0, 5, none, 0, false, none⟩],
          [⟨1, "INV-1", 1, ⟨2024, 1, 2⟩, 5, "Pending", 0, false, none⟩,
           ⟨2, "INV-2", 2, ⟨2024, 1, 3⟩, 6, "Pending", 0, false, none⟩],
          [], [], [], []⟩).2.customers := by
  refine ⟨?_, ?_, ?_, ?_⟩
  · exact (C5_delete_customer_cascade "admin" true 1 9
      ⟨[], [], [⟨1, "A", "w", 0, 5, none, 0, false, none⟩],
        [⟨1, "INV-1", 1, ⟨2024, 1, 2⟩, 5, "Pending", 0, false, none⟩,
         ⟨2, "INV-2", 2, ⟨2024, 1, 3⟩, 6, "Pending", 0, false, none⟩],
        [], [], [], []⟩ ⟨1, "A", "w", 0, 5, none, 0, false, none⟩ (by decide)).1
  · exact (C5_delete_customer_cascade "admin" true 1 9
      ⟨[], [], [⟨1, "A", "w", 0, 5, none, 0, false, none⟩],
        [⟨1, "INV-1", 1, ⟨2024, 1, 2⟩, 5, "Pending", 0, false, none⟩,
         ⟨2, "INV-2", 2, ⟨2024, 1, 3⟩, 6, "Pending", 0, false, none⟩],
        [], [], [], []⟩ ⟨1, "A", "w", 0, 5, none, 0, false, none⟩ (by decide)).2.2.1
      ⟨1, "INV-1", 1, ⟨2024, 1, 2⟩, 5, "Pending", 0, false, none⟩ (by decide) (by decide)
  · exact (C5_delete_customer_cascade "admin" true 1 9
      ⟨[], [], [⟨1, "A", "w", 0, 5, none, 0, false, none⟩],
        [⟨1, "INV-1", 1, ⟨2024, 1, 2⟩, 5, "Pending", 0, false, none⟩,
         ⟨2, "INV-2", 2, ⟨2024, 1, 3⟩, 6, "Pending", 0, false, none⟩],
        [], [], [], []⟩ ⟨1, "A", "w", 0, 5, none, 0, false, none⟩ (by decide)).2.2.2.2.2.2.1
      ⟨2, "INV-2", 2, ⟨2024, 1, 3⟩, 6, "Pending", 0, false, none⟩ (by decide) (by decide)
  · exact (C5_delete_customer_cascade "admin" true 1 9
      ⟨[], [], [⟨1, "A", "w", 0, 5, none, 0, false, none⟩],
        [⟨1, "INV-1", 1, ⟨2024, 1, 2⟩, 5, "Pending", 0, false, none⟩,
         ⟨2, "INV-2", 2, ⟨2024, 1, 3⟩, 6, "Pending", 0, false, none⟩],
        [], [], [], []⟩ ⟨1, "A", "w", 0, 5, none, 0, false, none⟩ (by decide)).2.1
      ⟨1, "A", "w", 0, 5, none, 0, false, none⟩ (by decide) (by decide)

/-- C6: soft-delete sets the flag plus a timestamp and leaves every other
field unchanged, and a subsequent restore clears both, again leaving the
other fields unchanged — for income, expenses, customers, invoices and
gallery images alike (stated via record updates that fix all other fields). -/
theorem C6_soft_delete_restore_roundtrip (actor actor2 : String)
    (aok aok2 : Bool) (now : Nat) (db : DB) :
    (∀ r ∈ db.incomes, r.is_deleted = false →
      (db.incomes.map (fun x => x.id)).Nodup →
      { r with is_deleted := true, deleted_at := some now } ∈
        (delete_income actor aok r.id now db).2.incomes ∧
      { r with is_deleted := false, deleted_at := none } ∈
        (restore_income actor2 aok2 r.id (delete_income actor aok r.id now db).2).2.incomes) ∧
    (∀ r ∈ db.expenses, r.is_deleted = false →
      (db.expenses.map (fun x => x.id)).Nodup →
      { r with is_deleted := true, deleted_at := some now } ∈
        (delete_expense actor aok r.id now db).2.expenses ∧
      { r with is_deleted := false, deleted_at := none } ∈
        (restore_expense actor2 aok2 r.id (delete_expense actor aok r.id now db).2).2.expenses) ∧
    (∀ r ∈ db.customers, r.is_deleted = false →
      (db.customers.map (fun x => x.id)).Nodup →
      { r with is_deleted := true, deleted_at := some now } ∈
        (delete_customer actor aok r.id now db).2.customers ∧
      { r with is_deleted := false, deleted_at := none } ∈
        (restore_customer actor2 aok2 r.id (delete_customer actor aok r.id now db).2).2.customers) ∧
    (∀ r ∈ db.invoices, r.is_deleted = false →
      (db.invoices.map (fun x => x.id)).Nodup →
      { r with is_deleted := true, deleted_at := some now } ∈
        (delete_invoice actor aok r.id now db).2.invoices ∧
      { r with is_deleted := false, deleted_at := none } ∈
        (restore_invoice actor2 aok2 r.id (delete_invoice actor aok r.id now db).2).2.invoices) ∧
    (∀ r ∈ db.gallery, r.is_deleted = false →
      (db.gallery.map (fun x => x.id)).Nodup →
      { r with is_deleted := true, deleted_at := some now } ∈
        (delete_gallery_image actor aok r.id now db).2.gallery ∧
      { r with is_deleted := false, deleted_at := none } ∈
        (restore_gallery_image actor2 aok2 r.id (delete_gallery_image actor aok r.id now db).2).2.gallery) := by
  refine ⟨?_, ?_, ?_, ?_, ?_⟩
  · intro r hr _hdel hnd
    have hfind : db.incomes.find? (fun x => x.id == r.id) = some r :=
      find?_id_eq_of_mem (fun x => x.id) db.incomes r r.id hnd hr rfl
    rw [delete_income, hfind]
    simp only []
    have hmem : ({ r with is_deleted := true, deleted_at := some now } : IncomeRow) ∈
        db.incomes.map (fun x =>
          if x.id == r.id then { x with is_deleted := true, deleted_at := some now } else x) :=
      mem_update_of_mem _ _ _ r hr (by simp)
    refine ⟨by rw [log_audit_incomes]; exact hmem, ?_⟩
    have hndM : ((db.incomes.map (fun x =>
        if x.id == r.id then { x with is_deleted := true, deleted_at := some now } else x)).map
          (fun x => x.id)).Nodup := by
      rw [map_ids_update (fun x => x.id)
        (fun x => { x with is_deleted := true, deleted_at := some now })
        (fun x => x.id == r.id) db.incomes (fun x => rfl)]
      exact hnd
    have hfind2 := find?_id_eq_of_mem (fun x => x.id) _
      ({ r with is_deleted := true, deleted_at := some now } : IncomeRow) r.id hndM hmem rfl
    rw [restore_income, log_audit_incomes]
    simp only []
    rw [hfind2]
    simp only []
    rw [if_pos trivial]
    simp only []
    rw [log_audit_incomes]
    exact mem_update_of_mem (fun x => { x with is_deleted := false, deleted_at := none })
      (fun x => x.id == r.id) _ ({ r with is_deleted := true, deleted_at := some now })
      hmem (beq_self_eq_true r.id)
  · intro r hr _hdel hnd
    have hfind : db.expenses.find? (fun x => x.id == r.id) = some r :=
      find?_id_eq_of_mem (fun x => x.id) db.expenses r r.id hnd hr rfl
    rw [delete_expense, hfind]
    simp only []
    have hmem : ({ r with is_deleted := true, deleted_at := some now } : ExpenseRow) ∈
        db.expenses.map (fun x =>
          if x.id == r.id then { x with is_deleted := true, deleted_at := some now } else x) :=
      mem_update_of_mem _ _ _ r hr (by simp)
    refine ⟨by rw [log_audit_expenses]; exact hmem, ?_⟩
    have hndM : ((db.expenses.map (fun x =>
        if x.id == r.id then { x with is_deleted := true, deleted_at := some now } else x)).map
          (fun x => x.id)).Nodup := by
      rw [map_ids_update (fun x => x.id)
        (fun x => { x with is_deleted := true, deleted_at := some now })
        (fun x => x.id == r.id) db.expenses (fun x => rfl)]
      exact hnd
    have hfind2 := find?_id_eq_of_mem (fun x => x.id) _
      ({ r with is_deleted := true, deleted_at := some now } : ExpenseRow) r.id hndM hmem rfl
    rw [restore_expense, log_audit_expenses]
    simp only []
    rw [hfind2]
    simp only []
    rw [if_pos trivial]
    simp only []
    rw [log_audit_expenses]
    exact mem_update_of_mem (fun x => { x with is_deleted := false, deleted_at := none })
      (fun x => x.id == r.id) _ ({ r with is_deleted := true, deleted_at := some now })
      hmem (beq_self_eq_true r.id)
  · intro r hr _hdel hnd
    have hfind : db.customers.find? (fun x => x.id == r.id) = some r :=
      find?_id_eq_of_mem (fun x => x.id) db.customers r r.id hnd hr rfl
    rw [delete_customer, hfind]
    simp only []
    have hmem : ({ r with is_deleted := true, deleted_at := some now } : CustomerRow) ∈
        db.customers.map (fun x =>
          if x.id == r.id then { x with is_deleted := true, deleted_at := some now } else x) :=
      mem_update_of_mem _ _ _ r hr (by simp)
    refine ⟨by rw [log_audit_customers]; exact hmem, ?_⟩
    have hndM : ((db.customers.map (fun x =>
        if x.id == r.id then { x with is_deleted := true, deleted_at := some now } else x)).map
          (fun x => x.id)).Nodup := by
      rw [map_ids_update (fun x => x.id)
        (fun x => { x with is_deleted := true, deleted_at := some now })
        (fun x => x.id == r.id) db.customers (fun x => rfl)]
      exact hnd
    have hfind2 := find?_id_eq_of_mem (fun x => x.id) _
      ({ r with is_deleted := true, deleted_at := some now } : CustomerRow) r.id hndM hmem rfl
    rw [restore_customer, log_audit_customers]
    simp only []
    rw [hfind2]
    simp only []
    rw [if_pos trivial]
    simp only []
    rw [log_audit_customers]
    exact mem_update_of_mem (fun x => { x with is_deleted := false, deleted_at := none })
      (fun x => x.id == r.id) _ ({ r with is_deleted := true, deleted_at := some now })
      hmem (beq_self_eq_true r.id)
  · intro r hr _hdel hnd
    have hfind : db.invoices.find? (fun x => x.id == r.id) = some r :=
      find?_id_eq_of_mem (fun x => x.id) db.invoices r r.id hnd hr rfl
    rw [delete_invoice, hfind]
    simp only []
    have hmem : ({ r with is_deleted := true, deleted_at := some now } : InvoiceRow) ∈
        db.invoices.map (fun x =>
          if x.id == r.id then { x with is_deleted := true, deleted_at := some now } else x) :=
      mem_update_of_mem _ _ _ r hr (by simp)
    refine ⟨by rw [log_audit_invoices]; exact hmem, ?_⟩
    have hndM : ((db.invoices.map (fun x =>
        if x.id == r.id then { x with is_deleted := true, deleted_at := some now } else x)).map
          (fun x => x.id)).Nodup := by
      rw [map_ids_update (fun x => x.id)
        (fun x => { x with is_deleted := true, deleted_at := some now })
        (fun x => x.id == r.id) db.invoices (fun x => rfl)]
      exact hnd
    have hfind2 := find?_id_eq_of_mem (fun x => x.id) _
      ({ r with is_deleted := true, deleted_at := some now } : InvoiceRow) r.id hndM hmem rfl
    rw [restore_invoice, log_audit_invoices]
    simp only []
    rw [hfind2]
    simp only []
    rw [if_pos trivial]
    simp only []
    rw [log_audit_invoices]
    exact mem_update_of_mem (fun x => { x with is_deleted := false, deleted_at := none })
      (fun x => x.id == r.id) _ ({ r with is_deleted := true, deleted_at := some now })
      hmem (beq_self_eq_true r.id)
  · intro r hr _hdel hnd
    have hfind : db.gallery.find? (fun x => x.id == r.id) = some r :=
      find?_id_eq_of_mem (fun x => x.id) db.gallery r r.id hnd hr rfl
    rw [delete_gallery_image, hfind]
    simp only []
    have hmem : ({ r with is_deleted := true, deleted_at := some now } : GalleryRow) ∈
        db.gallery.map (fun x =>
          if x.id == r.id then { x with is_deleted := true, deleted_at := some now } else x) :=
      mem_update_of_mem _ _ _ r hr (by simp)
    refine ⟨by rw [log_audit_gallery]; exact hmem, ?_⟩
    have hndM : ((db.gallery.map (fun x =>
        if x.id == r.id then { x with is_deleted := true, deleted_at := some now } else x)).map
          (fun x => x.id)).Nodup := by
      rw [map_ids_update (fun x => x.id)
        (fun x => { x with is_deleted := true, deleted_at := some now })
        (fun x => x.id == r.id) db.gallery (fun x => rfl)]
      exact hnd
    have hfind2 := find?_id_eq_of_mem (fun x => x.id) _
      ({ r with is_deleted := true, deleted_at := some now } : GalleryRow) r.id hndM hmem rfl
    rw [restore_gallery_image, log_audit_gallery]
    simp only []
    rw [hfind2]
    simp only []
    rw [if_pos trivial]
    simp only []
    rw [log_audit_gallery]
    exact mem_update_of_mem (fun x => { x with is_deleted := false, deleted_at := none })
      (fun x => x.id == r.id) _ ({ r with is_deleted := true, deleted_at := some now })
      hmem (beq_self_eq_true r.id)

/-- Witness for C6: on a one-row-per-table database, delete then restore
round-trips each row, preserving all other fields. -/
theorem C6_soft_delete_restore_roundtrip_witness :
    ((⟨1, ⟨2024, 1, 2⟩, "d", "c", 5, 0, true, some 7⟩ : IncomeRow) ∈
        (delete_income "a1" true 1 7 (⟨[⟨1, ⟨2024, 1, 2⟩, "d", "c", 5, 0, false, none⟩],
        [⟨1, ⟨2024, 1, 2⟩, "d", "c", 5, 0, false, none⟩],
        [⟨1, "A", "w", 1, 4, none, 0, false, none⟩],
        [⟨1, "INV-1", 1, ⟨2024, 1, 2⟩, 5, "Pending", 0, false, none⟩],
        [⟨1, "f.jpg", "a", none, true, 0, false, none⟩], [], [], []⟩ : DB)).2.incomes ∧
      (⟨1, ⟨2024, 1, 2⟩, "d", "c", 5, 0, false, none⟩ : IncomeRow) ∈
        (restore_income "a2" false 1 (delete_income "a1" true 1 7 (⟨[⟨1, ⟨2024, 1, 2⟩, "d", "c", 5, 0, false, none⟩],
        [⟨1, ⟨2024, 1, 2⟩, "d", "c", 5, 0, false, none⟩],
        [⟨1, "A", "w", 1, 4, none, 0, false, none⟩],
        [⟨1, "INV-1", 1, ⟨2024, 1, 2⟩, 5, "Pending", 0, false, none⟩],
        [⟨1, "f.jpg", "a", none, true, 0, false, none⟩], [], [], []⟩ : DB)).2).2.incomes) ∧
    ((⟨1, ⟨2024, 1, 2⟩, "d", "c", 5, 0, true, some 7⟩ : ExpenseRow) ∈
        (delete_expense "a1" true 1 7 (⟨[⟨1, ⟨2024, 1, 2⟩, "d", "c", 5, 0, false, none⟩],
        [⟨1, ⟨2024, 1, 2⟩, "d", "c", 5, 0, false, none⟩],
        [⟨1, "A", "w", 1, 4, none, 0, false, none⟩],
        [⟨1, "INV-1", 1, ⟨2024, 1, 2⟩, 5, "Pending", 0, false, none⟩],
        [⟨1, "f.jpg", "a", none, true, 0, false, none⟩], [], [], []⟩ : DB)).2.expenses ∧
      (⟨1, ⟨2024, 1, 2⟩, "d", "c", 5, 0, false, none⟩ : ExpenseRow) ∈
        (restore_expense "a2" false 1 (delete_expense "a1" true 1 7 (⟨[⟨1, ⟨2024, 1, 2⟩, "d", "c", 5, 0, false, none⟩],
        [⟨1, ⟨2024, 1, 2⟩, "d", "c", 5, 0, false, none⟩],
        [⟨1, "A", "w", 1, 4, none, 0, false, none⟩],
        [⟨1, "INV-1", 1, ⟨2024, 1, 2⟩, 5, "Pending", 0, false, none⟩],
        [⟨1, "f.jpg", "a", none, true, 0, false, none⟩], [], [], []⟩ : DB)).2).2.expenses) ∧
    ((⟨1, "A", "w", 1, 4, none, 0, true, some 7⟩ : CustomerRow) ∈
        (delete_customer "a1" true 1 7 (⟨[⟨1, ⟨2024, 1, 2⟩, "d", "c", 5, 0, false, none⟩],
        [⟨1, ⟨2024, 1, 2⟩, "d", "c", 5, 0, false, none⟩],
        [⟨1, "A", "w", 1, 4, none, 0, false, none⟩],
        [⟨1, "INV-1", 1, ⟨2024, 1, 2⟩, 5, "Pending", 0, false, none⟩],
        [⟨1, "f.jpg", "a", none, true, 0, false, none⟩], [], [], []⟩ : DB)).2.customers ∧
      (⟨1, "A", "w", 1, 4, none, 0, false, none⟩ : CustomerRow) ∈
        (restore_customer "a2" false 1 (delete_customer "a1" true 1 7 (⟨[⟨1, ⟨2024, 1, 2⟩, "d", "c", 5, 0, false, none⟩],
        [⟨1, ⟨2024, 1, 2⟩, "d", "c", 5, 0, false, none⟩],
        [⟨1, "A", "w", 1, 4, none, 0, false, none⟩],
        [⟨1, "INV-1", 1, ⟨2024, 1, 2⟩, 5, "Pending", 0, false, none⟩],
        [⟨1, "f.jpg", "a", none, true, 0, false, none⟩], [], [], []⟩ : DB)).2).2.customers) ∧
    ((⟨1, "INV-1", 1, ⟨2024, 1, 2⟩, 5, "Pending", 0, true, some 7⟩ : InvoiceRow) ∈
        (delete_invoice "a1" true 1 7 (⟨[⟨1, ⟨2024, 1, 2⟩, "d", "c", 5, 0, false, none⟩],
        [⟨1, ⟨2024, 1, 2⟩, "d", "c", 5, 0, false, none⟩],
        [⟨1, "A", "w", 1, 4, none, 0, false, none⟩],
        [⟨1, "INV-1", 1, ⟨2024, 1, 2⟩, 5, "Pending", 0, false, none⟩],
        [⟨1, "f.jpg", "a", none, true, 0, false, none⟩], [], [], []⟩ : DB)).2.invoices ∧
      (⟨1, "INV-1", 1, ⟨2024, 1, 2⟩, 5, "Pending", 0, false, none⟩ : InvoiceRow) ∈
        (restore_invoice "a2" false 1 (delete_invoice "a1" true 1 7 (⟨[⟨1, ⟨2024, 1, 2⟩, "d", "c", 5, 0, false, none⟩],
        [⟨1, ⟨2024, 1, 2⟩, "d", "c", 5, 0, false, none⟩],
        [⟨1, "A", "w", 1, 4, none, 0, false, none⟩],
        [⟨1, "INV-1", 1, ⟨2024, 1, 2⟩, 5, "Pending", 0, false, none⟩],
        [⟨1, "f.jpg", "a", none, true, 0, false, none⟩], [], [], []⟩ : DB)).2).2.invoices) ∧
    ((⟨1, "f.jpg", "a", none, true, 0, true, some 7⟩ : GalleryRow) ∈
        (delete_gallery_image "a1" true 1 7 (⟨[⟨1, ⟨2024, 1, 2⟩, "d", "c", 5, 0, false, none⟩],
        [⟨1, ⟨2024, 1, 2⟩, "d", "c", 5, 0, false, none⟩],
        [⟨1, "A", "w", 1, 4, none, 0, false, none⟩],
        [⟨1, "INV-1", 1, ⟨2024, 1, 2⟩, 5, "Pending", 0, false, none⟩],
        [⟨1, "f.jpg", "a", none, true, 0, false, none⟩], [], [], []⟩ : DB)).2.gallery ∧
      (⟨1, "f.jpg", "a", none, true, 0, false, none⟩ : GalleryRow) ∈
        (restore_gallery_image "a2" false 1 (delete_gallery_image "a1" true 1 7 (⟨[⟨1, ⟨2024, 1, 2⟩, "d", "c", 5, 0, false, none⟩],
        [⟨1, ⟨2024, 1, 2⟩, "d", "c", 5, 0, false, none⟩],
        [⟨1, "A", "w", 1, 4, none, 0, false, none⟩],
        [⟨1, "INV-1", 1, ⟨2024, 1, 2⟩, 5, "Pending", 0, false, none⟩],
        [⟨1, "f.jpg", "a", none, true, 0, false, none⟩], [], [], []⟩ : DB)).2).2.gallery) := by
  refine ⟨?_, ?_, ?_, ?_, ?_⟩
  · exact (C6_soft_delete_restore_roundtrip "a1" "a2" true false 7 (⟨[⟨1, ⟨2024, 1, 2⟩, "d", "c", 5, 0, false, none⟩],
        [⟨1, ⟨2024, 1, 2⟩, "d", "c", 5, 0, false, none⟩],
        [⟨1, "A", "w", 1, 4, none, 0, false, none⟩],
        [⟨1, "INV-1", 1, ⟨2024, 1, 2⟩, 5, "Pending", 0, false, none⟩],
        [⟨1, "f.jpg", "a", none, true, 0, false, none⟩], [], [], []⟩ : DB)).1
      ⟨1, ⟨2024, 1, 2⟩, "d", "c", 5, 0, false, none⟩ (by decide) (by decide) (by decide)
  · exact (C6_soft_delete_restore_roundtrip "a1" "a2" true false 7 (⟨[⟨1, ⟨2024, 1, 2⟩, "d", "c", 5, 0, false, none⟩],
        [⟨1, ⟨2024, 1, 2⟩, "d", "c", 5, 0, false, none⟩],
        [⟨1, "A", "w", 1, 4, none, 0, false, none⟩],
        [⟨1, "INV-1", 1, ⟨2024, 1, 2⟩, 5, "Pending", 0, false, none⟩],
        [⟨1, "f.jpg", "a", none, true, 0, false, none⟩], [], [], []⟩ : DB)).2.1
      ⟨1, ⟨2024, 1, 2⟩, "d", "c", 5, 0, false, none⟩ (by decide) (by decide) (by decide)
  · exact (C6_soft_delete_restore_roundtrip "a1" "a2" true false 7 (⟨[⟨1, ⟨2024, 1, 2⟩, "d", "c", 5, 0, false, none⟩],
        [⟨1, ⟨2024, 1, 2⟩, "d", "c", 5, 0, false, none⟩],
        [⟨1, "A", "w", 1, 4, none, 0, false, none⟩],
        [⟨1, "INV-1", 1, ⟨2024, 1, 2⟩, 5, "Pending", 0, false, none⟩],
        [⟨1, "f.jpg", "a", none, true, 0, false, none⟩], [], [], []⟩ : DB)).2.2.1
      ⟨1, "A", "w", 1, 4, none, 0, false, none⟩ (by decide) (by decide) (by decide)
  · exact (C6_soft_delete_restore_roundtrip "a1" "a2" true false 7 (⟨[⟨1, ⟨2024, 1, 2⟩, "d", "c", 5, 0, false, none⟩],
        [⟨1, ⟨2024, 1, 2⟩, "d", "c", 5, 0, false, none⟩],
        [⟨1, "A", "w", 1, 4, none, 0, false, none⟩],
        [⟨1, "INV-1", 1, ⟨2024, 1, 2⟩, 5, "Pending", 0, false, none⟩],
        [⟨1, "f.jpg", "a", none, true, 0, false, none⟩], [], [], []⟩ : DB)).2.2.2.1
      ⟨1, "INV-1", 1, ⟨2024, 1, 2⟩, 5, "Pending", 0, false, none⟩ (by decide) (by decide) (by decide)
  · exact (C6_soft_delete_restore_roundtrip "a1" "a2" true false 7 (⟨[⟨1, ⟨2024, 1, 2⟩, "d", "c", 5, 0, false, none⟩],
        [⟨1, ⟨2024, 1, 2⟩, "d", "c", 5, 0, false, none⟩],
        [⟨1, "A", "w", 1, 4, none, 0, false, none⟩],
        [⟨1, "INV-1", 1, ⟨2024, 1, 2⟩, 5, "Pending", 0, false, none⟩],
        [⟨1, "f.jpg", "a", none, true, 0, false, none⟩], [], [], []⟩ : DB)).2.2.2.2
      ⟨1, "f.jpg", "a", none, true, 0, false, none⟩ (by decide) (by decide) (by decide)

/-- Counterexample to C7 as stated: `add_gallery_image` performs no input
validation at all — called with an empty filename and album it does not
raise, and it inserts a row, so not every mutating operation validates its
string fields. -/
theorem C7_validation_counterexample :
    (add_gallery_image "admin" true "" "" none 5 ⟨[], [], [], [], [], [], [], []⟩).1 = .ok () ∧
    (add_gallery_image "admin" true "" "" none 5 ⟨[], [], [], [], [], [], [], []⟩).2.gallery =
      [⟨1, "", "", none, true, 5, false, none⟩] := by
  constructor
  · decide
  · decide

/-- C7 (amended): the financial mutating operations (`add_income`,
`add_expense`, `add_customer`, `update_customer_payment`, `add_invoice`)
validate their input — amounts must parse and be non-negative, dates must be
valid, and the income/expense string fields must be non-blank — raising a
`ValueError` with the stored state unchanged on invalid input (indeed every
error path of these operations leaves the state unchanged); but
`add_gallery_image`, `add_contact_message` and `add_pricing_package` perform
no input validation and insert a row for arbitrary input. -/
theorem C7_validation (actor : String) (aok : Bool) (date : PyDate)
    (description category : String) (amount : Option ℚ) (now : Nat) (db : DB)
    (amt : ℚ) (d : Date) (name service : String) (amount_paid total_amount : Option ℚ)
    (contact : Option String) (customer_id : Nat) (tokens : Nat → String)
    (dateStr : String) (inv_number : Option String) (filename album : String)
    (caption : Option String) (email : String) (phone service2 : Option String)
    (message : String) (description2 : Option String) (price : Int)
    (price_label icon : String) (features : Option String) (is_featured : Bool)
    (display_order : Int) :
    (∀ e, _validate_amount amount "Income amount" = .error e →
      add_income actor aok date description category amount now db = (.error e, db)) ∧
    (∀ e, _validate_amount amount "Income amount" = .ok amt →
      _validate_date date "Income date" = .error e →
      add_income actor aok date description category amount now db = (.error e, db)) ∧
    (_validate_amount amount "Income amount" = .ok amt →
      _validate_date date "Income date" = .ok d →
      pyStrip description = "" →
      add_income actor aok date description category amount now db =
        (.error (.valueError "Description is required."), db)) ∧
    (_validate_amount amount "Income amount" = .ok amt →
      _validate_date date "Income date" = .ok d →
      pyStrip description ≠ "" → pyStrip category = "" →
      add_income actor aok date description category amount now db =
        (.error (.valueError "Category is required."), db)) ∧
    (∀ e, (add_income actor aok date description category amount now db).1 = .error e →
      (add_income actor aok date description category amount now db).2 = db) ∧
    (∀ e, _validate_amount amount "Expense amount" = .error e →
      add_expense actor aok date description category amount now db = (.error e, db)) ∧
    (∀ e, (add_expense actor aok date description category amount now db).1 = .error e →
      (add_expense actor aok date description category amount now db).2 = db) ∧
    (∀ e, pyStrip name ≠ "" → pyStrip service ≠ "" →
      _validate_amount total_amount "Total amount" = .error e →
      add_customer actor aok name service amount_paid total_amount contact now db =
        (.error e, db)) ∧
    (∀ e, (add_customer actor aok name service amount_paid total_amount contact now db).1 = .error e →
      (add_customer actor aok name service amount_paid total_amount contact now db).2 = db) ∧
    (∀ e, _validate_amount amount_paid "Amount paid" = .error e →
      update_customer_payment actor aok customer_id amount_paid db = (.error e, db)) ∧
    (∀ e, (update_customer_payment actor aok customer_id amount_paid db).1 = .error e →
      (update_customer_payment actor aok customer_id amount_paid db).2 = db) ∧
    (∀ e, _validate_amount amount "Invoice amount" = .error e →
      add_invoice tokens dateStr actor aok inv_number customer_id date amount now db =
        (.error e, db)) ∧
    (∀ e, (add_invoice tokens dateStr actor aok inv_number customer_id date amount now db).1 = .error e →
      (add_invoice tokens dateStr actor aok inv_number customer_id date amount now db).2 = db) ∧
    ((add_gallery_image actor aok filename album caption now db).1 = .ok () ∧
      (add_gallery_image actor aok filename album caption now db).2.gallery =
        db.gallery ++ [⟨freshId (db.gallery.map (fun r => r.id)), filename, album, caption, true, now, false, none⟩]) ∧
    ((add_contact_message actor aok name email phone service2 message now db).1 = .ok () ∧
      (add_contact_message actor aok name email phone service2 message now db).2.messages =
        db.messages ++ [⟨freshId (db.messages.map (fun r => r.id)), name, email, phone, service2, message, false, now⟩]) ∧
    ((add_pricing_package actor aok name description2 price price_label icon features
        is_featured display_order now db).1 = .ok () ∧
      (add_pricing_package actor aok name description2 price price_label icon features
        is_featured display_order now db).2.packages =
        db.packages ++ [⟨freshId (db.packages.map (fun r => r.id)), name, description2, price,
          price_label, icon, features, is_featured, display_order, true, now⟩]) := by
  refine ⟨?_, ?_, ?_, ?_, ?_, ?_, ?_, ?_, ?_, ?_, ?_, ?_, ?_, ?_, ?_, ?_⟩
  · intro e h
    rw [add_income, h]
  · intro e h1 h2
    rw [add_income, h1, h2]
  · intro h1 h2 h3
    rw [add_income, h1, h2]
    simp only []
    rw [if_pos h3]
  · intro h1 h2 h3 h4
    rw [add_income, h1, h2]
    simp only []
    rw [if_neg h3, if_pos h4]
  · intro e h5
    rw [add_income] at h5 ⊢
    cases hamt : _validate_amount amount "Income amount" with
    | error e2 => simp only [hamt]
    | ok amt2 =>
      cases hdate : _validate_date date "Income date" with
      | error e2 => simp only [hamt, hdate]
      | ok d2 =>
        simp only [hamt, hdate] at h5 ⊢
        by_cases hdesc : pyStrip description = ""
        · rw [if_pos hdesc]
        · rw [if_neg hdesc] at h5 ⊢
          by_cases hcat : pyStrip category = ""
          · rw [if_pos hcat]
          · rw [if_neg hcat] at h5
            simp at h5
  · intro e h
    rw [add_expense, h]
  · intro e h5
    rw [add_expense] at h5 ⊢
    cases hamt : _validate_amount amount "Expense amount" with
    | error e2 => simp only [hamt]
    | ok amt2 =>
      cases hdate : _validate_date date "Expense date" with
      | error e2 => simp only [hamt, hdate]
      | ok d2 =>
        simp only [hamt, hdate] at h5 ⊢
        by_cases hdesc : pyStrip description = ""
        · rw [if_pos hdesc]
        · rw [if_neg hdesc] at h5 ⊢
          by_cases hcat : pyStrip category = ""
          · rw [if_pos hcat]
          · rw [if_neg hcat] at h5
            simp at h5
  · intro e h1 h2 h3
    rw [add_customer, if_neg h1, if_neg h2, h3]
  · intro e h5
    rw [add_customer] at h5 ⊢
    by_cases h1 : pyStrip name = ""
    · rw [if_pos h1]
    · rw [if_neg h1] at h5 ⊢
      by_cases h2 : pyStrip service = ""
      · rw [if_pos h2]
      · rw [if_neg h2] at h5 ⊢
        cases htot : _validate_amount total_amount "Total amount" with
        | error e2 => simp only [htot]
        | ok t =>
          cases hpaid : _validate_amount amount_paid "Amount paid" with
          | error e2 => simp only [htot, hpaid]
          | ok p =>
            simp only [htot, hpaid] at h5 ⊢
            by_cases hgt : p > t
            · rw [if_pos hgt]
            · rw [if_neg hgt] at h5
              simp at h5
  · intro e h
    rw [update_customer_payment, h]
  · intro e h5
    rw [update_customer_payment] at h5 ⊢
    cases hpaid : _validate_amount amount_paid "Amount paid" with
    | error e2 => simp only [hpaid]
    | ok p =>
      simp only [hpaid] at h5 ⊢
      cases hfind : db.customers.find? (fun r => r.id == customer_id) with
      | none => simp only [hfind]
      | some r =>
        simp only [hfind] at h5 ⊢
        by_cases hgt : p > r.total_amount
        · rw [if_pos hgt]
        · rw [if_neg hgt] at h5
          simp at h5
  · intro e h
    rw [add_invoice, h]
  · intro e h5
    rw [add_invoice] at h5 ⊢
    cases hamt : _validate_amount amount "Invoice amount" with
    | error e2 => simp only [hamt]
    | ok amt2 =>
      cases hdate : _validate_date date "Invoice date" with
      | error e2 => simp only [hamt, hdate]
      | ok d2 =>
        simp only [hamt, hdate] at h5 ⊢
        rcases addInvoiceLoop_cases tokens dateStr actor aok inv_number customer_id d2 amt2 now db 20 with
          ⟨e2, heq⟩ | ⟨num, _, heq⟩
        · rw [heq]
        · rw [heq] at h5
          simp at h5
  · constructor
    · rfl
    · rw [add_gallery_image]
      simp only []
      rw [log_audit_gallery]
  · constructor
    · rfl
    · rw [add_contact_message]
      simp only []
      rw [log_audit_messages]
  · constructor
    · rfl
    · rw [add_pricing_package]
      simp only []
      rw [log_audit_packages]

/-- Witness for C7 (amended): unparseable or negative amounts, bad dates and
blank descriptions are each rejected with the database unchanged, while the
three non-validating inserts accept even fully blank input. -/
theorem C7_validation_witness :
    add_income "a" true (.obj ⟨2024, 1, 2⟩) "d" "c" none 5 ⟨[], [], [], [], [], [], [], []⟩ =
      (.error (.valueError "Income amount must be a number."), ⟨[], [], [], [], [], [], [], []⟩) ∧
    add_income "a" true (.obj ⟨2024, 1, 2⟩) "d" "c" (some (-3)) 5 ⟨[], [], [], [], [], [], [], []⟩ =
      (.error (.valueError "Income amount must be zero or greater."), ⟨[], [], [], [], [], [], [], []⟩) ∧
    add_income "a" true (.raw "not-a-date") "d" "c" (some 5) 5 ⟨[], [], [], [], [], [], [], []⟩ =
      (.error (.valueError "Income date must be a valid date in YYYY-MM-DD format."), ⟨[], [], [], [], [], [], [], []⟩) ∧
    add_income "a" true (.obj ⟨2024, 1, 2⟩) "  " "c" (some 5) 5 ⟨[], [], [], [], [], [], [], []⟩ =
      (.error (.valueError "Description is required."), ⟨[], [], [], [], [], [], [], []⟩) ∧
    update_customer_payment "a" true 1 none ⟨[], [], [], [], [], [], [], []⟩ =
      (.error (.valueError "Amount paid must be a number."), ⟨[], [], [], [], [], [], [], []⟩) ∧
    (add_gallery_image "a" true "" "" none 5 ⟨[], [], [], [], [], [], [], []⟩).1 = .ok () ∧
    (add_contact_message "a" true "" "" none none "" 5 ⟨[], [], [], [], [], [], [], []⟩).1 = .ok () ∧
    (add_pricing_package "a" true "" none (-5) "" "" none false 0 5 ⟨[], [], [], [], [], [], [], []⟩).1 = .ok () := by
  refine ⟨?_, ?_, ?_, ?_, ?_, ?_, ?_, ?_⟩
  · exact (C7_validation "a" true (.obj ⟨2024, 1, 2⟩) "d" "c" none 5 ⟨[], [], [], [], [], [], [], []⟩
      0 ⟨2024, 1, 2⟩ "n" "s" none none none 1 (fun _ => "AA") "D" none "" "" none "" none none ""
      none 0 "" "" none false 0).1 (.valueError "Income amount must be a number.") (by decide)
  · exact (C7_validation "a" true (.obj ⟨2024, 1, 2⟩) "d" "c" (some (-3)) 5 ⟨[], [], [], [], [], [], [], []⟩
      0 ⟨2024, 1, 2⟩ "n" "s" none none none 1 (fun _ => "AA") "D" none "" "" none "" none none ""
      none 0 "" "" none false 0).1 (.valueError "Income amount must be zero or greater.") (by decide)
  · exact (C7_validation "a" true (.raw "not-a-date") "d" "c" (some 5) 5 ⟨[], [], [], [], [], [], [], []⟩
      5 ⟨2024, 1, 2⟩ "n" "s" none none none 1 (fun _ => "AA") "D" none "" "" none "" none none ""
      none 0 "" "" none false 0).2.1 (.valueError "Income date must be a valid date in YYYY-MM-DD format.")
      (by decide) (by decide)
  · exact (C7_validation "a" true (.obj ⟨2024, 1, 2⟩) "  " "c" (some 5) 5 ⟨[], [], [], [], [], [], [], []⟩
      5 ⟨2024, 1, 2⟩ "n" "s" none none none 1 (fun _ => "AA") "D" none "" "" none "" none none ""
      none 0 "" "" none false 0).2.2.1 (by decide) (by decide) (by decide)
  · exact (C7_validation "a" true (.obj ⟨2024, 1, 2⟩) "d" "c" none 5 ⟨[], [], [], [], [], [], [], []⟩
      0 ⟨2024, 1, 2⟩ "n" "s" none none none 1 (fun _ => "AA") "D" none "" "" none "" none none ""
      none 0 "" "" none false 0).2.2.2.2.2.2.2.2.2.1 (.valueError "Amount paid must be a number.")
      (by decide)
  · exact ((C7_validation "a" true (.obj ⟨2024, 1, 2⟩) "d" "c" none 5 ⟨[], [], [], [], [], [], [], []⟩
      0 ⟨2024, 1, 2⟩ "n" "s" none none none 1 (fun _ => "AA") "D" none "" "" none "" none none ""
      none 0 "" "" none false 0).2.2.2.2.2.2.2.2.2.2.2.2.2.1).1
  · exact ((C7_validation "a" true (.obj ⟨2024, 1, 2⟩) "d" "c" none 5 ⟨[], [], [], [], [], [], [], []⟩
      0 ⟨2024, 1, 2⟩ "" "s" none none none 1 (fun _ => "AA") "D" none "" "" none "" none none ""
      none 0 "" "" none false 0).2.2.2.2.2.2.2.2.2.2.2.2.2.2.1).1
  · exact ((C7_validation "a" true (.obj ⟨2024, 1, 2⟩) "d" "c" none 5 ⟨[], [], [], [], [], [], [], []⟩
      0 ⟨2024, 1, 2⟩ "" "s" none none none 1 (fun _ => "AA") "D" none "" "" none "" none none ""
      none (-5) "" "" none false 0).2.2.2.2.2.2.2.2.2.2.2.2.2.2.2).1

/-- C8: audit logging is best-effort and append-only. `log_audit` is a total
function of the database — on failure it returns the database unchanged
(the exception is swallowed), on success it only appends one entry — and for
the mutating operations the outcome and the main-table contents are
independent of whether the audit write succeeds, an audit failure never
aborts the mutation, and every successful mutation with a working audit
records exactly one matching entry. -/
theorem C8_audit_best_effort (u a e : String) (i : Option Nat) (db : DB)
    (actor : String) (date : PyDate) (description category : String)
    (amount : Option ℚ) (now : Nat) (income_id : Nat) (row : IncomeRow) :
    (log_audit false u a e i db = db) ∧
    ((log_audit true u a e i db).audits = db.audits ++ [⟨u, a, e, i⟩]) ∧
    ((log_audit true u a e i db).incomes = db.incomes) ∧
    (∀ aok, (add_income actor aok date description category amount now db).1 =
      (add_income actor true date description category amount now db).1) ∧
    (∀ aok, (add_income actor aok date description category amount now db).2.incomes =
      (add_income actor true date description category amount now db).2.incomes) ∧
    ((add_income actor false date description category amount now db).2.audits = db.audits) ∧
    ((add_income actor true date description category amount now db).1 = .ok () →
      (add_income actor true date description category amount now db).2.audits =
        db.audits ++ [⟨actor, "create", "income",
          some (freshId (db.incomes.map (fun r => r.id)))⟩]) ∧
    (∀ aok, (delete_income actor aok income_id now db).2.incomes =
      (delete_income actor true income_id now db).2.incomes) ∧
    (db.incomes.find? (fun r => r.id == income_id) = some row →
      (delete_income actor false income_id now db).2.audits = db.audits ∧
      (delete_income actor true income_id now db).2.audits =
        db.audits ++ [⟨actor, "delete", "income", some income_id⟩]) := by
  refine ⟨rfl, rfl, rfl, ?_, ?_, ?_, ?_, ?_, ?_⟩
  · intro aok
    simp only [add_income]
    cases h1 : _validate_amount amount "Income amount" with
    | error e2 => rfl
    | ok amt2 =>
      cases h2 : _validate_date date "Income date" with
      | error e2 => rfl
      | ok d2 =>
        by_cases hdesc : pyStrip description = "" <;>
          by_cases hcat : pyStrip category = "" <;>
          simp [hdesc, hcat]
  · intro aok
    simp only [add_income]
    cases h1 : _validate_amount amount "Income amount" with
    | error e2 => rfl
    | ok amt2 =>
      cases h2 : _validate_date date "Income date" with
      | error e2 => rfl
      | ok d2 =>
        by_cases hdesc : pyStrip description = "" <;>
          by_cases hcat : pyStrip category = "" <;>
          simp [hdesc, hcat, log_audit_incomes]
  · simp only [add_income]
    cases h1 : _validate_amount amount "Income amount" with
    | error e2 => rfl
    | ok amt2 =>
      cases h2 : _validate_date date "Income date" with
      | error e2 => rfl
      | ok d2 =>
        by_cases hdesc : pyStrip description = "" <;>
          by_cases hcat : pyStrip category = "" <;>
          simp [hdesc, hcat, log_audit]
  · intro hok
    rw [add_income] at hok ⊢
    cases hamt : _validate_amount amount "Income amount" with
    | error e2 => rw [hamt] at hok; simp at hok
    | ok amt2 =>
      cases hdate : _validate_date date "Income date" with
      | error e2 => rw [hamt, hdate] at hok; simp at hok
      | ok d2 =>
        rw [hamt, hdate] at hok
        by_cases hdesc : pyStrip description = ""
        · simp only [if_pos hdesc] at hok
          simp at hok
        · by_cases hcat : pyStrip category = ""
          · simp only [if_neg hdesc, if_pos hcat] at hok
            simp at hok
          · simp [hdesc, hcat, log_audit]
  · intro aok
    simp only [delete_income]
    cases h1 : db.incomes.find? (fun r => r.id == income_id) with
    | none => rfl
    | some r => simp [log_audit_incomes]
  · intro hfind
    simp only [delete_income]
    rw [hfind]
    constructor
    · rfl
    · rfl

/-- Witness for C8: on concrete databases, a failed audit write leaves the
database exactly as it was, income insertion and deletion produce the same
main-table contents whether or not the audit write succeeds, and on success
exactly one matching audit entry is appended. -/
theorem C8_audit_best_effort_witness :
    log_audit false "u" "create" "income" (some 1) ⟨[], [], [], [], [], [], [], []⟩ =
      ⟨[], [], [], [], [], [], [], []⟩ ∧
    (add_income "a" false (.obj ⟨2024, 1, 2⟩) "d" "c" (some 5) 7 ⟨[], [], [], [], [], [], [], []⟩).2.incomes =
      (add_income "a" true (.obj ⟨2024, 1, 2⟩) "d" "c" (some 5) 7 ⟨[], [], [], [], [], [], [], []⟩).2.incomes ∧
    (add_income "a" false (.obj ⟨2024, 1, 2⟩) "d" "c" (some 5) 7 ⟨[], [], [], [], [], [], [], []⟩).2.audits = [] ∧
    (add_income "a" true (.obj ⟨2024, 1, 2⟩) "d" "c" (some 5) 7 ⟨[], [], [], [], [], [], [], []⟩).2.audits =
      [⟨"a", "create", "income", some 1⟩] ∧
    (delete_income "a" false 1 7
      ⟨[⟨1, ⟨2024, 1, 2⟩, "d", "c", 5, 0, false, none⟩], [], [], [], [], [], [], []⟩).2.audits = [] ∧
    (delete_income "a" true 1 7
      ⟨[⟨1, ⟨2024, 1, 2⟩, "d", "c", 5, 0, false, none⟩], [], [], [], [], [], [], []⟩).2.audits =
      [⟨"a", "delete", "income", some 1⟩] := by
  refine ⟨?_, ?_, ?_, ?_, ?_, ?_⟩
  · exact (C8_audit_best_effort "u" "create" "income" (some 1) ⟨[], [], [], [], [], [], [], []⟩
      "a" (.obj ⟨2024, 1, 2⟩) "d" "c" (some 5) 7 1
      ⟨1, ⟨2024, 1, 2⟩, "d", "c", 5, 0, false, none⟩).1
  · exact (C8_audit_best_effort "u" "create" "income" (some 1) ⟨[], [], [], [], [], [], [], []⟩
      "a" (.obj ⟨2024, 1, 2⟩) "d" "c" (some 5) 7 1
      ⟨1, ⟨2024, 1, 2⟩, "d", "c", 5, 0, false, none⟩).2.2.2.2.1 false
  · exact (C8_audit_best_effort "u" "create" "income" (some 1) ⟨[], [], [], [], [], [], [], []⟩
      "a" (.obj ⟨2024, 1, 2⟩) "d" "c" (some 5) 7 1
      ⟨1, ⟨2024, 1, 2⟩, "d", "c", 5, 0, false, none⟩).2.2.2.2.2.1
  · exact (C8_audit_best_effort "u" "create" "income" (some 1) ⟨[], [], [], [], [], [], [], []⟩
      "a" (.obj ⟨2024, 1, 2⟩) "d" "c" (some 5) 7 1
      ⟨1, ⟨2024, 1, 2⟩, "d", "c", 5, 0, false, none⟩).2.2.2.2.2.2.1 (by decide)
  · exact ((C8_audit_best_effort "u" "create" "income" (some 1)
      ⟨[⟨1, ⟨2024, 1, 2⟩, "d", "c", 5, 0, false, none⟩], [], [], [], [], [], [], []⟩
      "a" (.obj ⟨2024, 1, 2⟩) "d" "c" (some 5) 7 1
      ⟨1, ⟨2024, 1, 2⟩, "d", "c", 5, 0, false, none⟩).2.2.2.2.2.2.2.2 (by decide)).1
  · exact ((C8_audit_best_effort "u" "create" "income" (some 1)
      ⟨[⟨1, ⟨2024, 1, 2⟩, "d", "c", 5, 0, false, none⟩], [], [], [], [], [], [], []⟩
      "a" (.obj ⟨2024, 1, 2⟩) "d" "c" (some 5) 7 1
      ⟨1, ⟨2024, 1, 2⟩, "d", "c", 5, 0, false, none⟩).2.2.2.2.2.2.2.2 (by decide)).2

/-- C9: calling `add_invoice` with an explicitly supplied, non-blank invoice
number that already exists raises `ValueError` after the rollback, and the
database — in particular the invoices table — is unchanged. -/
theorem C9_duplicate_invoice_number (tokens : Nat → String)
    (dateStr actor : String) (aok : Bool) (s : String) (customer_id : Nat)
    (date : PyDate) (amount : Option ℚ) (now : Nat) (db : DB) (amt : ℚ) (d : Date)
    (hs : pyStrip s ≠ "")
    (htaken : invoiceNumberTaken db.invoices (pyStrip s) = true)
    (hamt : _validate_amount amount "Invoice amount" = .ok amt)
    (hdate : _validate_date date "Invoice date" = .ok d) :
    add_invoice tokens dateStr actor aok (some s) customer_id date amount now db =
      (.error (.valueError "Invoice number already exists. Use a different number."), db) := by
  rw [add_invoice, hamt, hdate]
  simp only []
  rw [show (20 : Nat) = 19 + 1 from rfl, addInvoiceLoop]
  have ht : pyTruthy (some s) = true := pyTruthy_of_trim_ne (some s) hs
  simp only [Option.getD, if_pos hs, htaken, if_true, ht]

/-- Witness for C9: supplying the already-used number `X1` is rejected with
the database unchanged. -/
theorem C9_duplicate_invoice_number_witness :
    add_invoice (fun _ => "AA") "20240101" "admin" true (some "X1") 1 (.obj ⟨2024, 1, 5⟩)
        (some 5) 9 ⟨[], [], [], [⟨1, "X1", 1, ⟨2024, 1, 1⟩, 5, "Pending", 0, false, none⟩], [], [], [], []⟩ =
      (.error (.valueError "Invoice number already exists. Use a different number."),
        ⟨[], [], [], [⟨1, "X1", 1, ⟨2024, 1, 1⟩, 5, "Pending", 0, false, none⟩], [], [], [], []⟩) :=
  C9_duplicate_invoice_number (fun _ => "AA") "20240101" "admin" true "X1" 1
    (.obj ⟨2024, 1, 5⟩) (some 5) 9
    ⟨[], [], [], [⟨1, "X1", 1, ⟨2024, 1, 1⟩, 5, "Pending", 0, false, none⟩], [], [], [], []⟩
    5 ⟨2024, 1, 5⟩ (by decide) (by decide) (by decide) (by decide)

/-- C10: delete and restore are no-ops outside their domain — deleting an id
that matches no row leaves the whole database (audit log included)
unchanged and raises no error, and restoring a row that is not soft-deleted
(or an absent id) likewise changes nothing — for income, expenses,
customers, invoices and gallery images. -/
theorem C10_noop_outside_domain (actor : String) (aok : Bool) (xid : Nat)
    (now : Nat) (db : DB) :
    (db.incomes.find? (fun r => r.id == xid) = none →
      delete_income actor aok xid now db = (.ok (), db)) ∧
    (db.expenses.find? (fun r => r.id == xid) = none →
      delete_expense actor aok xid now db = (.ok (), db)) ∧
    (db.customers.find? (fun r => r.id == xid) = none →
      delete_customer actor aok xid now db = (.ok (), db)) ∧
    (db.invoices.find? (fun r => r.id == xid) = none →
      delete_invoice actor aok xid now db = (.ok (), db)) ∧
    (db.gallery.find? (fun r => r.id == xid) = none →
      delete_gallery_image actor aok xid now db = (.ok none, db)) ∧
    (db.incomes.find? (fun r => r.id == xid) = none →
      restore_income actor aok xid db = (.ok (), db)) ∧
    (∀ r, db.incomes.find? (fun r => r.id == xid) = some r → r.is_deleted = false →
      restore_income actor aok xid db = (.ok (), db)) ∧
    (∀ r, db.expenses.find? (fun r => r.id == xid) = some r → r.is_deleted = false →
      restore_expense actor aok xid db = (.ok (), db)) ∧
    (∀ r, db.customers.find? (fun r => r.id == xid) = some r → r.is_deleted = false →
      restore_customer actor aok xid db = (.ok (), db)) ∧
    (∀ r, db.invoices.find? (fun r => r.id == xid) = some r → r.is_deleted = false →
      restore_invoice actor aok xid db = (.ok (), db)) ∧
    (∀ r, db.gallery.find? (fun r => r.id == xid) = some r → r.is_deleted = false →
      restore_gallery_image actor aok xid db = (.ok (), db)) := by
  refine ⟨?_, ?_, ?_, ?_, ?_, ?_, ?_, ?_, ?_, ?_, ?_⟩
  · intro h
    rw [delete_income, h]
  · intro h
    rw [delete_expense, h]
  · intro h
    rw [delete_customer, h]
  · intro h
    rw [delete_invoice, h]
  · intro h
    rw [delete_gallery_image, h]
  · intro h
    rw [restore_income, h]
  · intro r h hdel
    rw [restore_income, h]
    simp only [hdel, Bool.false_eq_true, if_false]
  · intro r h hdel
    rw [restore_expense, h]
    simp only [hdel, Bool.false_eq_true, if_false]
  · intro r h hdel
    rw [restore_customer, h]
    simp only [hdel, Bool.false_eq_true, if_false]
  · intro r h hdel
    rw [restore_invoice, h]
    simp only [hdel, Bool.false_eq_true, if_false]
  · intro r h hdel
    rw [restore_gallery_image, h]
    simp only [hdel, Bool.false_eq_true, if_false]

/-- Witness for C10: on a database whose only rows carry id 1 and are not
soft-deleted, deleting or restoring id 2, and restoring the non-deleted
income row 1, all leave the database unchanged. -/
theorem C10_noop_outside_domain_witness :
    delete_income "a" true 2 7
      ⟨[⟨1, ⟨2024, 1, 2⟩, "d", "c", 5, 0, false, none⟩], [], [], [], [], [], [], []⟩ =
      (.ok (), ⟨[⟨1, ⟨2024, 1, 2⟩, "d", "c", 5, 0, false, none⟩], [], [], [], [], [], [], []⟩) ∧
    delete_customer "a" true 2 7
      ⟨[⟨1, ⟨2024, 1, 2⟩, "d", "c", 5, 0, false, none⟩], [], [], [], [], [], [], []⟩ =
      (.ok (), ⟨[⟨1, ⟨2024, 1, 2⟩, "d", "c", 5, 0, false, none⟩], [], [], [], [], [], [], []⟩) ∧
    delete_gallery_image "a" true 2 7
      ⟨[⟨1, ⟨2024, 1, 2⟩, "d", "c", 5, 0, false, none⟩], [], [], [], [], [], [], []⟩ =
      (.ok none, ⟨[⟨1, ⟨2024, 1, 2⟩, "d", "c", 5, 0, false, none⟩], [], [], [], [], [], [], []⟩) ∧
    restore_income "a" true 1
      ⟨[⟨1, ⟨2024, 1, 2⟩, "d", "c", 5, 0, false, none⟩], [], [], [], [], [], [], []⟩ =
      (.ok (), ⟨[⟨1, ⟨2024, 1, 2⟩, "d", "c", 5, 0, false, none⟩], [], [], [], [], [], [], []⟩) := by
  refine ⟨?_, ?_, ?_, ?_⟩
  · exact (C10_noop_outside_domain "a" true 2 7
      ⟨[⟨1, ⟨2024, 1, 2⟩, "d", "c", 5, 0, false, none⟩], [], [], [], [], [], [], []⟩).1 (by decide)
  · exact (C10_noop_outside_domain "a" true 2 7
      ⟨[⟨1, ⟨2024, 1, 2⟩, "d", "c", 5, 0, false, none⟩], [], [], [], [], [], [], []⟩).2.2.1 (by decide)
  · exact (C10_noop_outside_domain "a" true 2 7
      ⟨[⟨1, ⟨2024, 1, 2⟩, "d", "c", 5, 0, false, none⟩], [], [], [], [], [], [], []⟩).2.2.2.2.1 (by decide)
  · exact (C10_noop_outside_domain "a" true 1 7
      ⟨[⟨1, ⟨2024, 1, 2⟩, "d", "c", 5, 0, false, none⟩], [], [], [], [], [], [], []⟩).2.2.2.2.2.2.1
      ⟨1, ⟨2024, 1, 2⟩, "d", "c", 5, 0, false, none⟩ (by decide) (by decide)

end Benjo
